import Mathlib

/-!
# HWVirtualDRM: the virtual (writeback) display device

A shallow embedding of `sdm/libs/core/drm/hw_virtual_drm.cpp`.

* Machine integers are natural numbers; the narrowing casts of the source
  (`UINT16`, `UINT32`) are written out as `% 2 ^ w`.
* The instance fields the file reads or writes (`connector_info_`,
  `display_attributes_`, `current_mode_index_`, `first_cycle_`, `token_`,
  `hw_resource_.max_mixer_width`) form the record `HWVirtualDRM`.
* Everything the file calls but does not define (the kernel ioctl, the DRM
  manager, the atomic interface, the buffer registry and the base class
  `HWDeviceDRM`) is a collaborator.  Every call to a collaborator is appended
  to the ghost field `calls_`, in program order, and the value a collaborator
  returns is an arbitrary function of the calls made so far
  (`Collaborators`), so any sequence of answers can be supplied.
* `HWDeviceDRM::Init`, which `Init` calls first, is a parameter of `Init`: a
  function that answers a result and leaves the instance in some state.
* `DLOGE` / `DLOGI` and `DumpConnectorModeInfo` only write to the log and are
  left out.
* Indices into the mode list are natural numbers: the mode table is taken to
  hold fewer than `2 ^ 31` entries, so the `uint32_t` loop counters and the
  `INT32` / `UINT32` casts of an index or of the table size are the identity
  and are not written.
-/

namespace sdm

/-! ## Types declared outside this file -/

/-- Result codes of the display library (`DisplayError`, `sdm_types.h`). -/
inductive DisplayError where
  | kErrorNone
  | kErrorUndefined
  | kErrorNotSupported
  | kErrorPermission
  | kErrorVersion
  | kErrorDataAlignment
  | kErrorInstructionSet
  | kErrorParameters
  | kErrorFileDescriptor
  | kErrorMemory
  | kErrorResources
  | kErrorHardware
  | kErrorTimeOut
  | kErrorShutDown
  | kErrorPerfValidation
  deriving DecidableEq, Repr

open DisplayError

/-- The numeric fields of libdrm's `drmModeModeInfo` (the `name` array is only
printed). `hdisplay` .. `vscan` are `uint16_t`, the others `uint32_t`. -/
structure drmModeModeInfo where
  clock : Nat := 0
  hdisplay : Nat := 0
  hsync_start : Nat := 0
  hsync_end : Nat := 0
  htotal : Nat := 0
  hskew : Nat := 0
  vdisplay : Nat := 0
  vsync_start : Nat := 0
  vsync_end : Nat := 0
  vtotal : Nat := 0
  vscan : Nat := 0
  vrefresh : Nat := 0
  flags : Nat := 0
  type_ : Nat := 0
  deriving DecidableEq, Repr

/-- Layout of a connector across mixers (`sde_drm::DRMTopology`). -/
inductive DRMTopology where
  | UNKNOWN
  | SINGLE_LM
  | SINGLE_LM_DSC
  | DUAL_LM
  | DUAL_LM_DSC
  | DUAL_LM_MERGE
  | DUAL_LM_MERGE_DSC
  | DUAL_LM_DSCMERGE
  | PPSPLIT
  deriving DecidableEq, Repr

/-- The part of `sde_drm::DRMConnectorInfo` this file uses: the ordered mode
list and the topology. -/
structure DRMConnectorInfo where
  modes : List drmModeModeInfo := []
  topology : DRMTopology := DRMTopology.UNKNOWN
  deriving DecidableEq, Repr

/-- The fields of `HWDisplayAttributes` this file uses, all `uint32_t`. -/
structure HWDisplayAttributes where
  x_pixels : Nat := 0
  y_pixels : Nat := 0
  fps : Nat := 0
  deriving DecidableEq, Repr

/-- The connector and CRTC identity (`sde_drm::DRMDisplayToken`). -/
structure DRMDisplayToken where
  conn_id : Nat := 0
  crtc_id : Nat := 0
  deriving DecidableEq, Repr

/-- Rectangle handed to the atomic interface (`sde_drm::DRMRect`). -/
structure DRMRect where
  left : Nat := 0
  top : Nat := 0
  right : Nat := 0
  bottom : Nat := 0
  deriving DecidableEq, Repr

/-- Power modes of `sde_drm::DRMPowerMode`. -/
inductive DRMPowerMode where
  | ON
  | DOZE
  | DOZE_SUSPEND
  | OFF
  deriving DecidableEq, Repr

/-- Secure modes of `sde_drm::DRMSecureMode`. -/
inductive DRMSecureMode where
  | NON_SECURE
  | SECURE
  | NON_SECURE_DIR_TRANSLATION
  | SECURE_DIR_TRANSLATION
  deriving DecidableEq, Repr

/-- The output buffer of a frame: the handle of plane 0 and the secure flag
(`LayerBuffer::planes[0].fd`, `LayerBuffer::flags.secure`). -/
structure LayerBuffer where
  planes0_fd : Int := 0
  secure : Bool := false
  deriving DecidableEq, Repr

/-- A frame request; only `info.stack->output_buffer` is read here. -/
structure HWLayers where
  output_buffer : LayerBuffer := {}
  deriving DecidableEq, Repr

/-- Payload of the writeback mode-table ioctl (`struct sde_drm_wb_cfg`); the
`modes` pointer is modelled by the list it points to. -/
structure sde_drm_wb_cfg where
  flags : Nat := 0
  connector_id : Nat := 0
  count_modes : Nat := 0
  modes : List drmModeModeInfo := []
  deriving DecidableEq, Repr

/-- Kernel constant `SDE_DRM_WB_CFG_FLAGS_CONNECTED` (bit 0). -/
def SDE_DRM_WB_CFG_FLAGS_CONNECTED : Nat := 1

/-- Value of `EINVAL` in `errno.h`. -/
def EINVAL : Int := 22

/-- Cast to `uint16_t`. -/
def UINT16 (x : Nat) : Nat := x % 2 ^ 16

/-- Cast to `uint32_t`. -/
def UINT32 (x : Nat) : Nat := x % 2 ^ 32

/-! ## Calls to collaborators -/

/-- One call made to a collaborator, with its arguments. -/
inductive Call where
  | drmIoctl_SDE_WB_CONFIG (cfg : sde_drm_wb_cfg)
  | GetConnectorInfo (conn_id : Nat)
  | PopulateHWPanelInfo
  | UpdateMixerAttributes
  | CONNECTOR_SET_CRTC (conn_id crtc_id : Nat)
  | CONNECTOR_SET_POWER_MODE (conn_id : Nat) (mode : DRMPowerMode)
  | CONNECTOR_SET_OUTPUT_FB_ID (conn_id fb_id : Nat)
  | CONNECTOR_SET_OUTPUT_RECT (conn_id : Nat) (dst : DRMRect)
  | CONNECTOR_SET_FB_SECURE_MODE (conn_id : Nat) (mode : DRMSecureMode)
  | RegisterCurrent (hw_layers : HWLayers)
  | MapBufferToFbId (buffer : LayerBuffer)
  | GetFbId (fd : Int)
  | UnregisterNext
  | AtomicCommit (hw_layers : HWLayers)
  | BaseValidate (hw_layers : HWLayers)
  | BasePowerOn
  deriving DecidableEq, Repr

/-- The answers of the collaborators. Each answer may depend on every call
made before it (first argument) and on the call's own arguments. -/
structure Collaborators where
  drmIoctl : List Call → sde_drm_wb_cfg → Int
  GetConnectorInfo : List Call → Nat → DRMConnectorInfo
  GetFbId : List Call → Int → Nat
  AtomicCommit : List Call → HWLayers → DisplayError
  Validate : List Call → HWLayers → DisplayError
  PowerOn : List Call → DisplayError

/-! ## The instance -/

/-- The fields of a `HWVirtualDRM` instance used in this file, and the ghost
record `calls_` of the collaborator calls made so far. -/
structure HWVirtualDRM where
  connector_info_ : DRMConnectorInfo := {}
  display_attributes_ : List HWDisplayAttributes := []
  current_mode_index_ : Nat := 0
  first_cycle_ : Bool := true
  token_ : DRMDisplayToken := {}
  max_mixer_width : Nat := 0
  calls_ : List Call := []
  deriving DecidableEq, Repr

/-- Appends one collaborator call to the record. -/
def HWVirtualDRM.call (s : HWVirtualDRM) (c : Call) : HWVirtualDRM :=
  { s with calls_ := s.calls_ ++ [c] }

/-! ## GetModeIndex (lines 244-254) -/

/-- The condition of the `if` in the loop of `GetModeIndex`. -/
def modeMatches (display_attributes : HWDisplayAttributes) (m : drmModeModeInfo) : Bool :=
  display_attributes.x_pixels == m.hdisplay &&
  display_attributes.y_pixels == m.vdisplay &&
  display_attributes.fps == m.vrefresh

/-- The loop of `GetModeIndex`, entered at counter `i` with the modes from
position `i` on still to visit; `-1` is the value `*mode_index` was given before
the loop. -/
def GetModeIndex.loop (display_attributes : HWDisplayAttributes) :
    List drmModeModeInfo → Nat → Int
  | [], _ => -1
  | m :: rest, i =>
    if modeMatches display_attributes m then (i : Int)
    else GetModeIndex.loop display_attributes rest (i + 1)

/-- The value `GetModeIndex` stores in `*mode_index`. The method reads
`connector_info_.modes` and writes nothing but `*mode_index`. -/
def GetModeIndex (s : HWVirtualDRM) (display_attributes : HWDisplayAttributes) : Int :=
  GetModeIndex.loop display_attributes s.connector_info_.modes 0

/-! ## InitializeConfigs (lines 100-105) -/

/-- Modelled from the spec: `HWDeviceDRM::PopulateDisplayAttributes` is defined
in the base class, outside this file. It fills entry `index` of the per-mode
display-attribute cache from mode `index` of the connector: width and height
are the active size of the mode, the frame rate is its refresh rate. -/
def PopulateDisplayAttributes (s : HWVirtualDRM) (index : Nat) : HWVirtualDRM :=
  match s.connector_info_.modes[index]? with
  | none => s
  | some mode =>
    let attrs : HWDisplayAttributes :=
      { x_pixels := mode.hdisplay, y_pixels := mode.vdisplay, fps := mode.vrefresh }
    { s with display_attributes_ := s.display_attributes_.set index attrs }

/-- The effect of `std::vector::resize (n)` on a list: cut to `n` entries or
fill up with value-initialised entries. -/
def resize (l : List HWDisplayAttributes) (n : Nat) : List HWDisplayAttributes :=
  l.take n ++ List.replicate (n - l.length) ({} : HWDisplayAttributes)

/-- `InitializeConfigs`: resize the cache to the number of modes and populate
every entry. -/
def InitializeConfigs (s : HWVirtualDRM) : HWVirtualDRM :=
  let s1 : HWVirtualDRM :=
    { s with display_attributes_ := resize s.display_attributes_ s.connector_info_.modes.length }
  (List.range s1.connector_info_.modes.length).foldl PopulateDisplayAttributes s1

/-! ## SetWbConfigs (lines 107-150) -/

/-- The mode `SetWbConfigs` synthesizes (lines 111-117). The two 16-bit totals
are promoted and multiplied, the product is multiplied by the `uint32_t`
refresh rate in unsigned 32-bit arithmetic and divided by 1000; the value is
the product modulo `2 ^ 32`, divided. -/
def synthesizeMode (display_attributes : HWDisplayAttributes) : drmModeModeInfo :=
  let h := UINT16 display_attributes.x_pixels
  let v := UINT16 display_attributes.y_pixels
  let vrefresh := UINT32 display_attributes.fps
  { hdisplay := h, hsync_start := h, hsync_end := h, htotal := h,
    vdisplay := v, vsync_start := v, vsync_end := v, vtotal := v,
    vrefresh := vrefresh,
    clock := UINT32 (h * v * vrefresh) / 1000 }

/-- The ioctl payload built on lines 121-125 from the instance. -/
def wbConfig (s : HWVirtualDRM) : sde_drm_wb_cfg :=
  { connector_id := s.token_.conn_id,
    flags := SDE_DRM_WB_CFG_FLAGS_CONNECTED,
    count_modes := s.connector_info_.modes.length,
    modes := s.connector_info_.modes }

/-- `SetWbConfigs`, for a build in which `DRM_IOCTL_SDE_WB_CONFIG` is defined
(without it `ret` keeps `-EINVAL`, which is the behaviour under a
collaborator whose ioctl always answers `-EINVAL`). -/
def SetWbConfigs (c : Collaborators) (s : HWVirtualDRM)
    (display_attributes : HWDisplayAttributes) : DisplayError × HWVirtualDRM :=
  let mode := synthesizeMode display_attributes
  -- connector_info_.modes.push_back(mode)
  let s1 : HWVirtualDRM :=
    { s with connector_info_ :=
        { s.connector_info_ with modes := s.connector_info_.modes ++ [mode] } }
  let wb_cfg := wbConfig s1
  let ret := c.drmIoctl s1.calls_ wb_cfg
  let s2 := s1.call (Call.drmIoctl_SDE_WB_CONFIG wb_cfg)
  if ret ≠ 0 then
    (kErrorHardware, s2)
  else
    let info := c.GetConnectorInfo s2.calls_ s2.token_.conn_id
    let s3 : HWVirtualDRM :=
      { s2.call (Call.GetConnectorInfo s2.token_.conn_id) with connector_info_ := info }
    let s4 := InitializeConfigs s3
    let mode_index := GetModeIndex s4 display_attributes
    if mode_index < 0 then
      (kErrorNotSupported, s4)
    else
      (kErrorNone, { s4 with current_mode_index_ := mode_index.toNat })

/-! ## SetDisplayAttributes (lines 209-230) -/

/-- Lines 224-229 of `SetDisplayAttributes`: refresh the panel-info and
mixer-attribute caches of the base class and report success. -/
def SetDisplayAttributes.finish (s : HWVirtualDRM) : DisplayError × HWVirtualDRM :=
  (kErrorNone, (s.call Call.PopulateHWPanelInfo).call Call.UpdateMixerAttributes)

/-- `SetDisplayAttributes`. -/
def SetDisplayAttributes (c : Collaborators) (s : HWVirtualDRM)
    (display_attributes : HWDisplayAttributes) : DisplayError × HWVirtualDRM :=
  if display_attributes.x_pixels = 0 ∨ display_attributes.y_pixels = 0 then
    (kErrorParameters, s)
  else
    let mode_index := GetModeIndex s display_attributes
    if mode_index < 0 then
      let r := SetWbConfigs c s display_attributes
      if r.1 ≠ kErrorNone then r
      else SetDisplayAttributes.finish r.2
    else
      SetDisplayAttributes.finish { s with current_mode_index_ := mode_index.toNat }

/-! ## Connector properties (lines 80-98) -/

/-- `ConfigureWbConnectorFbId`. -/
def ConfigureWbConnectorFbId (s : HWVirtualDRM) (fb_id : Nat) : HWVirtualDRM :=
  s.call (Call.CONNECTOR_SET_OUTPUT_FB_ID s.token_.conn_id fb_id)

/-- `ConfigureWbConnectorDestRect`. Reading `display_attributes_` past its end
is undefined, so the result is `none` there. -/
def ConfigureWbConnectorDestRect (s : HWVirtualDRM) : Option HWVirtualDRM :=
  match s.display_attributes_[s.current_mode_index_]? with
  | none => none
  | some attrs =>
    let dst : DRMRect := { left := 0, bottom := attrs.y_pixels, top := 0, right := attrs.x_pixels }
    some (s.call (Call.CONNECTOR_SET_OUTPUT_RECT s.token_.conn_id dst))

/-- `ConfigureWbConnectorSecureMode`. -/
def ConfigureWbConnectorSecureMode (s : HWVirtualDRM) (secure : Bool) : HWVirtualDRM :=
  let secure_mode := if secure then DRMSecureMode.SECURE else DRMSecureMode.NON_SECURE
  s.call (Call.CONNECTOR_SET_FB_SECURE_MODE s.token_.conn_id secure_mode)

/-! ## Commit, Validate, PowerOn (lines 164-238) -/

/-- The first-cycle block shared by `Commit` and `Validate` (lines 169-170 and
195-196): assign the CRTC and switch the connector on. -/
def firstCycleSetup (s : HWVirtualDRM) : HWVirtualDRM :=
  (s.call (Call.CONNECTOR_SET_CRTC s.token_.conn_id s.token_.crtc_id)).call
    (Call.CONNECTOR_SET_POWER_MODE s.token_.conn_id DRMPowerMode.ON)

/-- `Commit`. -/
def Commit (c : Collaborators) (s : HWVirtualDRM) (hw_layers : HWLayers) :
    Option (DisplayError × HWVirtualDRM) :=
  let output_buffer := hw_layers.output_buffer
  let s1 : HWVirtualDRM :=
    if s.first_cycle_ then { firstCycleSetup s with first_cycle_ := false } else s
  let s2 := s1.call (Call.RegisterCurrent hw_layers)
  let s3 := s2.call (Call.MapBufferToFbId output_buffer)
  let fb_id := c.GetFbId s3.calls_ output_buffer.planes0_fd
  let s4 := s3.call (Call.GetFbId output_buffer.planes0_fd)
  let s5 := ConfigureWbConnectorFbId s4 fb_id
  match ConfigureWbConnectorDestRect s5 with
  | none => none
  | some s6 =>
    let s7 := ConfigureWbConnectorSecureMode s6 output_buffer.secure
    let err := c.AtomicCommit s7.calls_ hw_layers
    let s8 := s7.call (Call.AtomicCommit hw_layers)
    let s9 := s8.call Call.UnregisterNext
    some (err, s9)

/-- `Validate`. -/
def Validate (c : Collaborators) (s : HWVirtualDRM) (hw_layers : HWLayers) :
    Option (DisplayError × HWVirtualDRM) :=
  let output_buffer := hw_layers.output_buffer
  let s1 : HWVirtualDRM := if s.first_cycle_ then firstCycleSetup s else s
  let s3 := s1.call (Call.MapBufferToFbId output_buffer)
  let fb_id := c.GetFbId s3.calls_ output_buffer.planes0_fd
  let s4 := s3.call (Call.GetFbId output_buffer.planes0_fd)
  let s5 := ConfigureWbConnectorFbId s4 fb_id
  match ConfigureWbConnectorDestRect s5 with
  | none => none
  | some s6 =>
    let s7 := ConfigureWbConnectorSecureMode s6 output_buffer.secure
    let err := c.Validate s7.calls_ hw_layers
    some (err, s7.call (Call.BaseValidate hw_layers))

/-- `PowerOn`. -/
def PowerOn (c : Collaborators) (s : HWVirtualDRM) : DisplayError × HWVirtualDRM :=
  if s.first_cycle_ then (kErrorNone, s)
  else (c.PowerOn s.calls_, s.call Call.BasePowerOn)

/-! ## Init (lines 58-78) -/

/-- `HWVirtualDRM::Init`. The base-class `HWDeviceDRM::Init` is defined
outside this file and is a parameter: it answers a result and leaves the
instance in some state. -/
def Init (baseInit : HWVirtualDRM → DisplayError × HWVirtualDRM) (s : HWVirtualDRM) :
    DisplayError × HWVirtualDRM :=
  let r := baseInit s
  if r.1 ≠ kErrorNone then
    (r.1, r.2)
  else
    let s1 := r.2
    let s2 : HWVirtualDRM :=
      if s1.connector_info_.topology = DRMTopology.UNKNOWN then
        let max_width :=
          s1.connector_info_.modes.foldl (fun acc m => max acc (UINT32 m.hdisplay)) 0
        let topology :=
          if max_width > s1.max_mixer_width then DRMTopology.DUAL_LM_MERGE
          else DRMTopology.SINGLE_LM
        { s1 with connector_info_ := { s1.connector_info_ with topology := topology } }
      else s1
    (kErrorNone, InitializeConfigs s2)

/-- A base-class `Init` that succeeds and leaves the instance as it found
it. -/
def baseInitOk (s : HWVirtualDRM) : DisplayError × HWVirtualDRM := (kErrorNone, s)

/-- A base-class `Init` that fails with `kErrorResources`. -/
def baseInitFails (s : HWVirtualDRM) : DisplayError × HWVirtualDRM := (kErrorResources, s)

/-! ## Sequences of operations -/

/-- The state after a sequence of `SetDisplayAttributes` calls. -/
def runSetDisplayAttributes (c : Collaborators) (s : HWVirtualDRM) :
    List HWDisplayAttributes → HWVirtualDRM
  | [] => s
  | display_attributes :: rest =>
    runSetDisplayAttributes c (SetDisplayAttributes c s display_attributes).2 rest

/-- The public operations of the instance used after `Init`. -/
inductive Op where
  | Commit (hw_layers : HWLayers)
  | Validate (hw_layers : HWLayers)
  | SetDisplayAttributes (display_attributes : HWDisplayAttributes)
  | PowerOn
  deriving DecidableEq, Repr

/-- The state after one operation; `none` when the operation reads
`display_attributes_` past its end. -/
def step (c : Collaborators) (s : HWVirtualDRM) : Op → Option HWVirtualDRM
  | Op.Commit hw_layers => (Commit c s hw_layers).map Prod.snd
  | Op.Validate hw_layers => (Validate c s hw_layers).map Prod.snd
  | Op.SetDisplayAttributes display_attributes =>
    some (SetDisplayAttributes c s display_attributes).2
  | Op.PowerOn => some (PowerOn c s).2

/-- The state after a sequence of operations. -/
def runOps (c : Collaborators) (s : HWVirtualDRM) : List Op → Option HWVirtualDRM
  | [] => some s
  | op :: rest =>
    match step c s op with
    | none => none
    | some s1 => runOps c s1 rest

/-! ## Concrete collaborators and inputs -/

/-- The mode list of the last mode-table update in a record of calls. -/
def lastSubmitted (calls : List Call) : List drmModeModeInfo :=
  match calls.getLast? with
  | some (Call.drmIoctl_SDE_WB_CONFIG cfg) => cfg.modes
  | _ => []

/-- Hardware that accepts every mode-table update and reloads exactly the
list it was given; every frame is accepted. -/
def echoHardware : Collaborators where
  drmIoctl := fun _ _ => 0
  GetConnectorInfo := fun calls _ =>
    { modes := lastSubmitted calls, topology := DRMTopology.SINGLE_LM }
  GetFbId := fun _ fd => fd.toNat
  AtomicCommit := fun _ _ => kErrorNone
  Validate := fun _ _ => kErrorNone
  PowerOn := fun _ => kErrorNone

/-- Hardware that rejects every mode-table update with `-EINVAL`. -/
def rejectingHardware : Collaborators :=
  { echoHardware with drmIoctl := fun _ _ => -EINVAL }

/-- Hardware that accepts every update, reloads the submitted list after the
first update, and reloads an empty list after any later one. -/
def forgetfulHardware : Collaborators :=
  { echoHardware with
    GetConnectorInfo := fun calls _ =>
      if calls.length ≤ 1 then
        { modes := lastSubmitted calls, topology := DRMTopology.SINGLE_LM }
      else { modes := [], topology := DRMTopology.SINGLE_LM } }

/-- The request 1920x1080 at 30 fps. -/
def fullHD30 : HWDisplayAttributes := { x_pixels := 1920, y_pixels := 1080, fps := 30 }

/-- The request 1280x720 at 60 fps. -/
def hd60 : HWDisplayAttributes := { x_pixels := 1280, y_pixels := 720, fps := 60 }

/-- A progressive 1920x1080 mode at 30 Hz. -/
def mode1080p30 : drmModeModeInfo :=
  { hdisplay := 1920, hsync_start := 1920, hsync_end := 1920, htotal := 1920,
    vdisplay := 1080, vsync_start := 1080, vsync_end := 1080, vtotal := 1080,
    vrefresh := 30, clock := 62208 }

/-- An interlaced 1920x1080 mode at 30 Hz (`DRM_MODE_FLAG_INTERLACE`). -/
def mode1080i30 : drmModeModeInfo := { mode1080p30 with flags := 16 }

/-- A fresh instance with an empty mode table. -/
def emptyInstance : HWVirtualDRM := {}

/-- An instance whose connector reports two modes of the same size and rate. -/
def twoModeInstance : HWVirtualDRM :=
  { connector_info_ := { modes := [mode1080p30, mode1080i30] },
    display_attributes_ := [fullHD30, fullHD30] }

/-! ## Names for the intermediate states of SetWbConfigs -/

/-- The instance at line 119: the synthesized mode pushed onto the list. -/
def SetWbConfigs.pushed (s : HWVirtualDRM) (da : HWDisplayAttributes) : HWVirtualDRM :=
  { s with connector_info_ :=
      { s.connector_info_ with modes := s.connector_info_.modes ++ [synthesizeMode da] } }

/-- The value of `ret` tested on line 129. -/
def SetWbConfigs.ret (c : Collaborators) (s : HWVirtualDRM) (da : HWDisplayAttributes) : Int :=
  c.drmIoctl s.calls_ (wbConfig (SetWbConfigs.pushed s da))

/-- The instance at line 129: mode pushed and the ioctl issued. -/
def SetWbConfigs.afterUpdate (s : HWVirtualDRM) (da : HWDisplayAttributes) : HWVirtualDRM :=
  (SetWbConfigs.pushed s da).call
    (Call.drmIoctl_SDE_WB_CONFIG (wbConfig (SetWbConfigs.pushed s da)))

/-- The connector info the reload on line 135 returns. -/
def SetWbConfigs.reloadedInfo (c : Collaborators) (s : HWVirtualDRM)
    (da : HWDisplayAttributes) : DRMConnectorInfo :=
  c.GetConnectorInfo (SetWbConfigs.afterUpdate s da).calls_ s.token_.conn_id

/-- The instance at line 137: connector info reloaded and the cache rebuilt. -/
def SetWbConfigs.afterReload (c : Collaborators) (s : HWVirtualDRM)
    (da : HWDisplayAttributes) : HWVirtualDRM :=
  InitializeConfigs
    { (SetWbConfigs.afterUpdate s da).call (Call.GetConnectorInfo s.token_.conn_id) with
      connector_info_ := SetWbConfigs.reloadedInfo c s da }

/-- Some mode of the list equals the request on width, height and refresh
rate. -/
def hasExactMatch (modes : List drmModeModeInfo) (da : HWDisplayAttributes) : Prop :=
  ∃ m ∈ modes, da.x_pixels = m.hdisplay ∧ da.y_pixels = m.vdisplay ∧ da.fps = m.vrefresh

instance (modes : List drmModeModeInfo) (da : HWDisplayAttributes) :
    Decidable (hasExactMatch modes da) := by
  unfold hasExactMatch
  infer_instance

/-- An instance with two modes, the second one selected. -/
def secondSelectedInstance : HWVirtualDRM :=
  { connector_info_ := { modes := [mode1080p30, mode1080i30] },
    display_attributes_ := [fullHD30, fullHD30],
    current_mode_index_ := 1,
    token_ := { conn_id := 27, crtc_id := 5 } }

/-- The call is a hardware mode-table update. -/
def isModeTableUpdate : Call → Bool
  | Call.drmIoctl_SDE_WB_CONFIG _ => true
  | _ => false

/-- The call is a reload of the connector info. -/
def isReload : Call → Bool
  | Call.GetConnectorInfo _ => true
  | _ => false

/-- The call enqueues the pipe-assignment property. -/
def isSetCrtc : Call → Bool
  | Call.CONNECTOR_SET_CRTC _ _ => true
  | _ => false

/-- The call enqueues the power-mode property. -/
def isSetPowerMode : Call → Bool
  | Call.CONNECTOR_SET_POWER_MODE _ _ => true
  | _ => false

/-- The request 0x1080 at 60 fps. -/
def zeroWidth60 : HWDisplayAttributes := { x_pixels := 0, y_pixels := 1080, fps := 60 }

/-- An instance in its first cycle with one mode, selected and cached. -/
def freshCachedInstance : HWVirtualDRM :=
  { connector_info_ := { modes := [mode1080p30], topology := DRMTopology.SINGLE_LM },
    display_attributes_ := [fullHD30],
    current_mode_index_ := 0,
    first_cycle_ := true,
    token_ := { conn_id := 27, crtc_id := 5 } }

/-- Hardware that accepts mode-table updates and rejects every frame. -/
def failingCommitHardware : Collaborators :=
  { echoHardware with AtomicCommit := fun _ _ => kErrorHardware }

/-! ## Names for the calls of one frame -/

/-- The calls of the first-cycle block, empty in steady state. -/
def firstCycleCalls (s : HWVirtualDRM) : List Call :=
  if s.first_cycle_ then
    [Call.CONNECTOR_SET_CRTC s.token_.conn_id s.token_.crtc_id,
     Call.CONNECTOR_SET_POWER_MODE s.token_.conn_id DRMPowerMode.ON]
  else []

/-- The three connector properties enqueued for a frame (lines 178-180 and
202-204), for a given framebuffer id and cached attributes of the selected
mode. -/
def frameProperties (s : HWVirtualDRM) (hw_layers : HWLayers) (fb_id : Nat)
    (attrs : HWDisplayAttributes) : List Call :=
  [Call.CONNECTOR_SET_OUTPUT_FB_ID s.token_.conn_id fb_id,
   Call.CONNECTOR_SET_OUTPUT_RECT s.token_.conn_id
     { left := 0, top := 0, right := attrs.x_pixels, bottom := attrs.y_pixels },
   Call.CONNECTOR_SET_FB_SECURE_MODE s.token_.conn_id
     (if hw_layers.output_buffer.secure then DRMSecureMode.SECURE
      else DRMSecureMode.NON_SECURE)]

/-- The framebuffer id the registry returns to `Commit` on line 176. -/
def Commit.fbId (c : Collaborators) (s : HWVirtualDRM) (hw_layers : HWLayers) : Nat :=
  c.GetFbId
    (s.calls_ ++ (firstCycleCalls s ++
      [Call.RegisterCurrent hw_layers, Call.MapBufferToFbId hw_layers.output_buffer]))
    hw_layers.output_buffer.planes0_fd

/-- The calls `Commit` has made when it reaches the submit on line 182. -/
def Commit.callsBeforeSubmit (c : Collaborators) (s : HWVirtualDRM) (hw_layers : HWLayers)
    (attrs : HWDisplayAttributes) : List Call :=
  firstCycleCalls s ++
    ([Call.RegisterCurrent hw_layers, Call.MapBufferToFbId hw_layers.output_buffer,
      Call.GetFbId hw_layers.output_buffer.planes0_fd] ++
     frameProperties s hw_layers (Commit.fbId c s hw_layers) attrs)

/-- The framebuffer id the registry returns to `Validate` on line 200. -/
def Validate.fbId (c : Collaborators) (s : HWVirtualDRM) (hw_layers : HWLayers) : Nat :=
  c.GetFbId
    (s.calls_ ++ (firstCycleCalls s ++ [Call.MapBufferToFbId hw_layers.output_buffer]))
    hw_layers.output_buffer.planes0_fd

/-- The calls `Validate` has made when it reaches the dry run on line 206. -/
def Validate.callsBeforeDryRun (c : Collaborators) (s : HWVirtualDRM) (hw_layers : HWLayers)
    (attrs : HWDisplayAttributes) : List Call :=
  firstCycleCalls s ++
    ([Call.MapBufferToFbId hw_layers.output_buffer,
      Call.GetFbId hw_layers.output_buffer.planes0_fd] ++
     frameProperties s hw_layers (Validate.fbId c s hw_layers) attrs)

/-- The call enqueues a property on the atomic interface (`Perform`). -/
def isProperty : Call → Bool
  | Call.CONNECTOR_SET_CRTC _ _ => true
  | Call.CONNECTOR_SET_POWER_MODE _ _ => true
  | Call.CONNECTOR_SET_OUTPUT_FB_ID _ _ => true
  | Call.CONNECTOR_SET_OUTPUT_RECT _ _ => true
  | Call.CONNECTOR_SET_FB_SECURE_MODE _ _ => true
  | _ => false

/-- The call is `registry_.RegisterCurrent`. -/
def isRegisterCurrent : Call → Bool
  | Call.RegisterCurrent _ => true
  | _ => false

/-- The call is `registry_.UnregisterNext`. -/
def isUnregisterNext : Call → Bool
  | Call.UnregisterNext => true
  | _ => false

/-- The call is the atomic submit of the base class. -/
def isAtomicCommit : Call → Bool
  | Call.AtomicCommit _ => true
  | _ => false

/-- The call is the dry run of the base class. -/
def isBaseValidate : Call → Bool
  | Call.BaseValidate _ => true
  | _ => false

/-- The call enqueues the destination rectangle. -/
def isOutputRect : Call → Bool
  | Call.CONNECTOR_SET_OUTPUT_RECT _ _ => true
  | _ => false

/-- A frame whose output buffer is flagged secure. -/
def secureFrame : HWLayers := { output_buffer := { planes0_fd := 42, secure := true } }

/-- The request 7680x4320 at 144 fps. -/
def uhd8k144 : HWDisplayAttributes := { x_pixels := 7680, y_pixels := 4320, fps := 144 }

/-- The request 67456x1080 at 30 fps; the width is `65536 + 1920`. -/
def wide30 : HWDisplayAttributes := { x_pixels := 67456, y_pixels := 1080, fps := 30 }

/-- A 3840x2160 mode at 60 Hz. -/
def mode2160p60 : drmModeModeInfo :=
  { hdisplay := 3840, hsync_start := 3840, hsync_end := 3840, htotal := 3840,
    vdisplay := 2160, vsync_start := 2160, vsync_end := 2160, vtotal := 2160,
    vrefresh := 60, clock := 497664 }

/-- A 1280x720 mode at 60 Hz. -/
def mode720p60 : drmModeModeInfo :=
  { hdisplay := 1280, hsync_start := 1280, hsync_end := 1280, htotal := 1280,
    vdisplay := 720, vsync_start := 720, vsync_end := 720, vtotal := 720,
    vrefresh := 60, clock := 55296 }

/-- An instance as the base class leaves it: two modes loaded, no topology
assigned, a single-mixer width of 2560, the cache not yet built. -/
def loadedInstance : HWVirtualDRM :=
  { connector_info_ := { modes := [mode1080p30, mode2160p60], topology := DRMTopology.UNKNOWN },
    max_mixer_width := 2560,
    token_ := { conn_id := 27, crtc_id := 5 } }

/-- The cache entry `PopulateDisplayAttributes` writes for a mode. -/
def cachedAttributes (m : drmModeModeInfo) : HWDisplayAttributes :=
  { x_pixels := m.hdisplay, y_pixels := m.vdisplay, fps := m.vrefresh }

/-- Every cache entry sits at the index of a mode of the list and holds the
active size of that mode. -/
def CacheSynced (s : HWVirtualDRM) : Prop :=
  ∀ (i : Nat) (attrs : HWDisplayAttributes), s.display_attributes_[i]? = some attrs →
    ∃ m : drmModeModeInfo, s.connector_info_.modes[i]? = some m ∧
      attrs.x_pixels = m.hdisplay ∧ attrs.y_pixels = m.vdisplay

/-- Hardware that accepts every update, then drops the mode that was added
and reports the remaining modes in reverse order. -/
def pruningHardware : Collaborators :=
  { echoHardware with
    GetConnectorInfo := fun calls _ =>
      { modes := (lastSubmitted calls).dropLast.reverse, topology := DRMTopology.SINGLE_LM } }

/-- The instance after a successful `Init` on two loaded modes and a
successful request for 1920x1080 at 30 fps, which selects index 0. -/
def selectedFullHDInstance : HWVirtualDRM :=
  (SetDisplayAttributes pruningHardware (Init baseInitOk loadedInstance).2 fullHD30).2

/-- The operations: select 1920x1080 at 30 fps, commit a frame, then request
1280x720 at 60 fps. -/
def selectCommitRequest : List Op :=
  [Op.SetDisplayAttributes fullHD30, Op.Commit secureFrame, Op.SetDisplayAttributes hd60]

/-- The instance after `selectCommitRequest` on a successfully initialised
instance, under hardware that rejects the mode-table update. -/
def afterRejectedRequest : HWVirtualDRM :=
  (runOps rejectingHardware (Init baseInitOk loadedInstance).2 selectCommitRequest).getD
    emptyInstance

/-- The instance after a successful `Init` on an empty mode table and two
requests for 1920x1080 at 30 fps, under hardware that rejects the mode-table
update. -/
def afterRepeatedRequest : HWVirtualDRM :=
  runSetDisplayAttributes rejectingHardware (Init baseInitOk emptyInstance).2
    [fullHD30, fullHD30]

/-- The instance after a successful `Init` on an empty mode table: in its
first cycle, no mode selected yet, the cache empty. -/
def freshEmptyInstance : HWVirtualDRM := (Init baseInitOk emptyInstance).2

/-! ## GetModeIndex: lemmas -/

/-- The condition of `GetModeIndex` is equality of the three fields. -/
theorem modeMatches_iff (da : HWDisplayAttributes) (m : drmModeModeInfo) :
    modeMatches da m = true ↔
      da.x_pixels = m.hdisplay ∧ da.y_pixels = m.vdisplay ∧ da.fps = m.vrefresh := by
  simp [modeMatches, and_assoc]

/-- What the loop returns, entered at counter `i`: either nothing in the rest
of the list matches and the result is `-1`, or the result is `i + k` for the
first matching position `k` of the rest. -/
theorem GetModeIndex.loop_spec (da : HWDisplayAttributes) (l : List drmModeModeInfo) :
    ∀ i : Nat,
      (GetModeIndex.loop da l i = -1 ∧ ∀ m ∈ l, modeMatches da m = false) ∨
      (∃ k : Nat, ∃ m, l[k]? = some m ∧ modeMatches da m = true ∧
        GetModeIndex.loop da l i = ((i + k : Nat) : Int) ∧
        ∀ j m1, j < k → l[j]? = some m1 → modeMatches da m1 = false) := by
  induction l with
  | nil => intro i; left; simp [GetModeIndex.loop]
  | cons a rest ih =>
    intro i
    by_cases ha : modeMatches da a = true
    · right
      refine ⟨0, a, by simp, ha, by simp [GetModeIndex.loop, ha], ?_⟩
      intro j m1 hj
      omega
    · have ha1 : modeMatches da a = false := by simpa using ha
      rcases ih (i + 1) with ⟨h1, h2⟩ | ⟨k, m, hk, hm, hres, hmin⟩
      · left
        refine ⟨by simp [GetModeIndex.loop, ha1, h1], ?_⟩
        intro m hmem
        rcases List.mem_cons.1 hmem with rfl | hmem
        · exact ha1
        · exact h2 m hmem
      · right
        refine ⟨k + 1, m, by simpa using hk, hm, ?_, ?_⟩
        · simp only [GetModeIndex.loop, ha1, Bool.false_eq_true, if_false, hres]
          congr 1
          omega
        · intro j m1 hj hget
          cases j with
          | zero =>
            simp at hget
            subst hget
            exact ha1
          | succ j =>
            simp at hget
            exact hmin j m1 (by omega) hget

/-- The result of `GetModeIndex` is `-1` or the first matching index. -/
theorem GetModeIndex_spec (s : HWVirtualDRM) (da : HWDisplayAttributes) :
    (GetModeIndex s da = -1 ∧ ∀ m ∈ s.connector_info_.modes, modeMatches da m = false) ∨
    (∃ k : Nat, ∃ m, s.connector_info_.modes[k]? = some m ∧ modeMatches da m = true ∧
      GetModeIndex s da = (k : Int) ∧
      ∀ j m1, j < k → s.connector_info_.modes[j]? = some m1 → modeMatches da m1 = false) := by
  have h := GetModeIndex.loop_spec da s.connector_info_.modes 0
  simpa [GetModeIndex] using h

/-- `GetModeIndex` is negative exactly when no mode matches. -/
theorem GetModeIndex_neg_iff (s : HWVirtualDRM) (da : HWDisplayAttributes) :
    GetModeIndex s da < 0 ↔ ∀ m ∈ s.connector_info_.modes, modeMatches da m = false := by
  rcases GetModeIndex_spec s da with ⟨h1, h2⟩ | ⟨k, m, hk, hm, hres, _⟩
  · exact ⟨fun _ => h2, fun _ => by rw [h1]; decide⟩
  · constructor
    · intro h
      rw [hres] at h
      omega
    · intro h
      have := h m (List.getElem?_mem hk)
      simp [hm] at this

/-- `GetModeIndex` depends on the instance only through the mode list. -/
theorem GetModeIndex_congr (s t : HWVirtualDRM) (da : HWDisplayAttributes)
    (h : s.connector_info_.modes = t.connector_info_.modes) :
    GetModeIndex s da = GetModeIndex t da := by
  simp [GetModeIndex, h]

/-! ## InitializeConfigs and SetWbConfigs: lemmas -/

/-- `SetWbConfigs` in terms of its intermediate states. -/
theorem SetWbConfigs_eq (c : Collaborators) (s : HWVirtualDRM) (da : HWDisplayAttributes) :
    SetWbConfigs c s da =
      if SetWbConfigs.ret c s da ≠ 0 then (kErrorHardware, SetWbConfigs.afterUpdate s da)
      else if GetModeIndex (SetWbConfigs.afterReload c s da) da < 0 then
        (kErrorNotSupported, SetWbConfigs.afterReload c s da)
      else
        (kErrorNone, { SetWbConfigs.afterReload c s da with
          current_mode_index_ := (GetModeIndex (SetWbConfigs.afterReload c s da) da).toNat }) := by
  rfl

/-- Populating cache entries changes only the cache, and not its length. -/
theorem foldl_PopulateDisplayAttributes_frame (idxs : List Nat) :
    ∀ s : HWVirtualDRM,
      let t := idxs.foldl PopulateDisplayAttributes s
      t.connector_info_ = s.connector_info_ ∧
      t.current_mode_index_ = s.current_mode_index_ ∧
      t.first_cycle_ = s.first_cycle_ ∧
      t.token_ = s.token_ ∧
      t.max_mixer_width = s.max_mixer_width ∧
      t.calls_ = s.calls_ ∧
      t.display_attributes_.length = s.display_attributes_.length := by
  induction idxs with
  | nil => intro s; simp
  | cons i rest ih =>
    intro s
    have h := ih (PopulateDisplayAttributes s i)
    simp only [List.foldl_cons]
    have hp : (PopulateDisplayAttributes s i).connector_info_ = s.connector_info_ ∧
        (PopulateDisplayAttributes s i).current_mode_index_ = s.current_mode_index_ ∧
        (PopulateDisplayAttributes s i).first_cycle_ = s.first_cycle_ ∧
        (PopulateDisplayAttributes s i).token_ = s.token_ ∧
        (PopulateDisplayAttributes s i).max_mixer_width = s.max_mixer_width ∧
        (PopulateDisplayAttributes s i).calls_ = s.calls_ ∧
        (PopulateDisplayAttributes s i).display_attributes_.length
          = s.display_attributes_.length := by
      unfold PopulateDisplayAttributes
      cases s.connector_info_.modes[i]? <;> simp
    obtain ⟨h1, h2, h3, h4, h5, h6, h7⟩ := h
    obtain ⟨p1, p2, p3, p4, p5, p6, p7⟩ := hp
    exact ⟨h1.trans p1, h2.trans p2, h3.trans p3, h4.trans p4, h5.trans p5, h6.trans p6,
      h7.trans p7⟩

/-- `InitializeConfigs` changes only the cache, and makes it as long as the
mode list. -/
theorem InitializeConfigs_frame (s : HWVirtualDRM) :
    (InitializeConfigs s).connector_info_ = s.connector_info_ ∧
    (InitializeConfigs s).current_mode_index_ = s.current_mode_index_ ∧
    (InitializeConfigs s).first_cycle_ = s.first_cycle_ ∧
    (InitializeConfigs s).token_ = s.token_ ∧
    (InitializeConfigs s).max_mixer_width = s.max_mixer_width ∧
    (InitializeConfigs s).calls_ = s.calls_ ∧
    (InitializeConfigs s).display_attributes_.length = s.connector_info_.modes.length := by
  have h := foldl_PopulateDisplayAttributes_frame (List.range s.connector_info_.modes.length)
    { s with display_attributes_ := resize s.display_attributes_ s.connector_info_.modes.length }
  obtain ⟨h1, h2, h3, h4, h5, h6, h7⟩ := h
  refine ⟨h1, h2, h3, h4, h5, h6, ?_⟩
  have hlen : (resize s.display_attributes_ s.connector_info_.modes.length).length
      = s.connector_info_.modes.length := by
    simp [resize]
    omega
  exact h7.trans hlen

/-- The fields of the instance after the reload of `SetWbConfigs`. -/
theorem SetWbConfigs.afterReload_frame (c : Collaborators) (s : HWVirtualDRM)
    (da : HWDisplayAttributes) :
    (SetWbConfigs.afterReload c s da).connector_info_ = SetWbConfigs.reloadedInfo c s da ∧
    (SetWbConfigs.afterReload c s da).current_mode_index_ = s.current_mode_index_ ∧
    (SetWbConfigs.afterReload c s da).first_cycle_ = s.first_cycle_ ∧
    (SetWbConfigs.afterReload c s da).token_ = s.token_ ∧
    (SetWbConfigs.afterReload c s da).calls_ =
      s.calls_ ++ [Call.drmIoctl_SDE_WB_CONFIG (wbConfig (SetWbConfigs.pushed s da)),
        Call.GetConnectorInfo s.token_.conn_id] ∧
    (SetWbConfigs.afterReload c s da).display_attributes_.length =
      (SetWbConfigs.reloadedInfo c s da).modes.length := by
  obtain ⟨h1, h2, h3, h4, _, h6, h7⟩ := InitializeConfigs_frame
    { (SetWbConfigs.afterUpdate s da).call (Call.GetConnectorInfo s.token_.conn_id) with
      connector_info_ := SetWbConfigs.reloadedInfo c s da }
  refine ⟨h1, h2, h3, h4, ?_, h7⟩
  rw [SetWbConfigs.afterReload, h6]
  simp [SetWbConfigs.afterUpdate, HWVirtualDRM.call, SetWbConfigs.pushed]

/-- `GetModeIndex` is negative exactly when the list has no exact match. -/
theorem GetModeIndex_neg_iff_not_hasExactMatch (s : HWVirtualDRM) (da : HWDisplayAttributes) :
    GetModeIndex s da < 0 ↔ ¬ hasExactMatch s.connector_info_.modes da := by
  rw [GetModeIndex_neg_iff]
  simp only [hasExactMatch, ← modeMatches_iff]
  simp

/-- `SetDisplayAttributes` with `SetWbConfigs` spelled out: the five ways
through the two functions. -/
theorem SetDisplayAttributes_eq (c : Collaborators) (s : HWVirtualDRM)
    (da : HWDisplayAttributes) :
    SetDisplayAttributes c s da =
      if da.x_pixels = 0 ∨ da.y_pixels = 0 then (kErrorParameters, s)
      else if GetModeIndex s da < 0 then
        if SetWbConfigs.ret c s da ≠ 0 then (kErrorHardware, SetWbConfigs.afterUpdate s da)
        else if GetModeIndex (SetWbConfigs.afterReload c s da) da < 0 then
          (kErrorNotSupported, SetWbConfigs.afterReload c s da)
        else
          SetDisplayAttributes.finish { SetWbConfigs.afterReload c s da with
            current_mode_index_ := (GetModeIndex (SetWbConfigs.afterReload c s da) da).toNat }
      else
        SetDisplayAttributes.finish { s with current_mode_index_ := (GetModeIndex s da).toNat } := by
  unfold SetDisplayAttributes
  simp only [SetWbConfigs_eq]
  split_ifs <;> simp_all

/-- A failed `SetDisplayAttributes` leaves the selected index alone. -/
theorem SetDisplayAttributes_error_index (c : Collaborators) (s : HWVirtualDRM)
    (da : HWDisplayAttributes) (herr : (SetDisplayAttributes c s da).1 ≠ kErrorNone) :
    (SetDisplayAttributes c s da).2.current_mode_index_ = s.current_mode_index_ := by
  rw [SetDisplayAttributes_eq] at herr ⊢
  split_ifs at herr ⊢ with hz hn hr hn2
  · rfl
  · simp [SetWbConfigs.afterUpdate, HWVirtualDRM.call, SetWbConfigs.pushed]
  · exact (SetWbConfigs.afterReload_frame c s da).2.1
  · exact absurd rfl herr
  · exact absurd rfl herr

/-! ## C2, C3: GetModeIndex -/

/-- C2: for every mode list and request, `GetModeIndex` returns `-1` exactly
when no mode equals the request on width, height and refresh rate, and
otherwise returns the smallest index whose mode equals the request on all
three; it returns nothing else. The method is a function of the mode list and
has no state to return, so the list is as before. -/
theorem C2_GetModeIndex_first_exact_match (s : HWVirtualDRM) (da : HWDisplayAttributes) :
    (GetModeIndex s da = -1 ↔
      ∀ m ∈ s.connector_info_.modes,
        ¬ (da.x_pixels = m.hdisplay ∧ da.y_pixels = m.vdisplay ∧ da.fps = m.vrefresh)) ∧
    (∀ i : Nat, GetModeIndex s da = (i : Int) ↔
      ∃ m, s.connector_info_.modes[i]? = some m ∧
        (da.x_pixels = m.hdisplay ∧ da.y_pixels = m.vdisplay ∧ da.fps = m.vrefresh) ∧
        ∀ j m1, j < i → s.connector_info_.modes[j]? = some m1 →
          ¬ (da.x_pixels = m1.hdisplay ∧ da.y_pixels = m1.vdisplay ∧ da.fps = m1.vrefresh)) ∧
    (GetModeIndex s da = -1 ∨
      ∃ i : Nat, i < s.connector_info_.modes.length ∧ GetModeIndex s da = (i : Int)) := by
  simp only [← modeMatches_iff, Bool.not_eq_true]
  rcases GetModeIndex_spec s da with ⟨h1, h2⟩ | ⟨k, m, hk, hm, hres, hmin⟩
  · refine ⟨⟨fun _ => h2, fun _ => h1⟩, ?_, Or.inl h1⟩
    intro i
    constructor
    · intro h
      rw [h1] at h
      omega
    · rintro ⟨m, hi, hm, _⟩
      have := h2 m (List.getElem?_mem hi)
      simp [hm] at this
  · refine ⟨?_, ?_, Or.inr ⟨k, ?_, hres⟩⟩
    · constructor
      · intro h
        rw [hres] at h
        omega
      · intro h
        have := h m (List.getElem?_mem hk)
        simp [hm] at this
    · intro i
      constructor
      · intro h
        have hik : i = k := by rw [hres] at h; omega
        subst hik
        exact ⟨m, hk, hm, hmin⟩
      · rintro ⟨m2, hi, hm2, hmin2⟩
        have hik : i = k := by
          rcases Nat.lt_trichotomy i k with hlt | heq | hgt
          · have := hmin i m2 hlt hi
            simp [hm2] at this
          · exact heq
          · have := hmin2 k m hgt hk
            simp [hm] at this
        rw [hres, hik]
    · exact (List.getElem?_eq_some_iff.1 hk).1

/-- C3, as stated, fails: the second of two modes with the same width, height
and refresh rate sits at index 1, and `GetModeIndex` for its attributes
returns 0. -/
theorem C3_counterexample :
    twoModeInstance.connector_info_.modes[1]? = some mode1080i30 ∧
    GetModeIndex twoModeInstance
      { x_pixels := mode1080i30.hdisplay, y_pixels := mode1080i30.vdisplay,
        fps := mode1080i30.vrefresh } = 0 ∧
    GetModeIndex twoModeInstance
      { x_pixels := mode1080i30.hdisplay, y_pixels := mode1080i30.vdisplay,
        fps := mode1080i30.vrefresh } ≠ 1 := by
  decide

/-- C3, amended: for the attributes of the mode at index `i`, `GetModeIndex`
returns an index `j ≤ i` whose mode has the same width, height and refresh
rate; `j` is `i` itself exactly when no earlier mode has the same three
values. -/
theorem C3_GetModeIndex_of_listed_mode (s : HWVirtualDRM) (i : Nat) (m : drmModeModeInfo)
    (hi : s.connector_info_.modes[i]? = some m) :
    ∃ j : Nat, ∃ mj,
      GetModeIndex s { x_pixels := m.hdisplay, y_pixels := m.vdisplay, fps := m.vrefresh }
        = (j : Int) ∧
      j ≤ i ∧ s.connector_info_.modes[j]? = some mj ∧
      mj.hdisplay = m.hdisplay ∧ mj.vdisplay = m.vdisplay ∧ mj.vrefresh = m.vrefresh ∧
      (j = i ↔ ∀ k mk, k < i → s.connector_info_.modes[k]? = some mk →
        ¬ (mk.hdisplay = m.hdisplay ∧ mk.vdisplay = m.vdisplay ∧ mk.vrefresh = m.vrefresh)) := by
  have hself : modeMatches
      { x_pixels := m.hdisplay, y_pixels := m.vdisplay, fps := m.vrefresh } m = true := by
    simp [modeMatches]
  rcases GetModeIndex_spec s
      { x_pixels := m.hdisplay, y_pixels := m.vdisplay, fps := m.vrefresh } with
    ⟨_, h2⟩ | ⟨k, mk, hk, hmk, hres, hmin⟩
  · have := h2 m (List.getElem?_mem hi)
    simp [hself] at this
  · have hki : k ≤ i := by
      by_contra hlt
      have := hmin i m (by omega) hi
      simp [hself] at this
    have hf := (modeMatches_iff _ _).1 hmk
    refine ⟨k, mk, hres, hki, hk, hf.1.symm, hf.2.1.symm, hf.2.2.symm, ?_⟩
    constructor
    · intro hkeq k1 m1 hlt hget hsame
      have := hmin k1 m1 (by omega) hget
      have h1 : modeMatches
          { x_pixels := m.hdisplay, y_pixels := m.vdisplay, fps := m.vrefresh } m1 = true := by
        rw [modeMatches_iff]
        exact ⟨hsame.1.symm, hsame.2.1.symm, hsame.2.2.symm⟩
      simp [h1] at this
    · intro hnone
      by_contra hne
      exact hnone k mk (by omega) hk ⟨hf.1.symm, hf.2.1.symm, hf.2.2.symm⟩

/-- C3, amended, at the second of two modes of equal size and rate: the
result is index 0, which is not above 1 and holds a mode of the same size. -/
theorem C3_GetModeIndex_of_listed_mode_witness :
    ∃ j : Nat, ∃ mj,
      GetModeIndex twoModeInstance
        { x_pixels := mode1080i30.hdisplay, y_pixels := mode1080i30.vdisplay,
          fps := mode1080i30.vrefresh } = (j : Int) ∧
      j ≤ 1 ∧ twoModeInstance.connector_info_.modes[j]? = some mj ∧
      mj.hdisplay = mode1080i30.hdisplay ∧ mj.vdisplay = mode1080i30.vdisplay ∧
      mj.vrefresh = mode1080i30.vrefresh ∧
      (j = 1 ↔ ∀ k mk, k < 1 → twoModeInstance.connector_info_.modes[k]? = some mk →
        ¬ (mk.hdisplay = mode1080i30.hdisplay ∧ mk.vdisplay = mode1080i30.vdisplay ∧
          mk.vrefresh = mode1080i30.vrefresh)) :=
  C3_GetModeIndex_of_listed_mode twoModeInstance 1 mode1080i30 (by decide)

/-! ## C1, C4, C5: the result of SetDisplayAttributes -/

/-- C1: a request with zero width or zero height is answered with
`kErrorParameters` and the instance is returned as it was: no call to the
hardware is recorded, and the selected index, the mode list and the
display-attribute cache are the ones from before the call. -/
theorem C1_zero_size_rejected (c : Collaborators) (s : HWVirtualDRM)
    (da : HWDisplayAttributes) (h : da.x_pixels = 0 ∨ da.y_pixels = 0) :
    (SetDisplayAttributes c s da).1 = kErrorParameters ∧
    (SetDisplayAttributes c s da).2.calls_ = s.calls_ ∧
    (SetDisplayAttributes c s da).2.current_mode_index_ = s.current_mode_index_ ∧
    (SetDisplayAttributes c s da).2.connector_info_.modes = s.connector_info_.modes ∧
    (SetDisplayAttributes c s da).2.display_attributes_ = s.display_attributes_ ∧
    (SetDisplayAttributes c s da).2 = s := by
  simp [SetDisplayAttributes, h]

/-- C1 at the request 0x1080 at 60 fps on an instance with two modes, the
second one selected, under hardware that would accept any update. -/
theorem C1_zero_size_rejected_witness :
    (SetDisplayAttributes echoHardware secondSelectedInstance
      { x_pixels := 0, y_pixels := 1080, fps := 60 }).1 = kErrorParameters ∧
    (SetDisplayAttributes echoHardware secondSelectedInstance
      { x_pixels := 0, y_pixels := 1080, fps := 60 }).2.calls_ = secondSelectedInstance.calls_ ∧
    (SetDisplayAttributes echoHardware secondSelectedInstance
      { x_pixels := 0, y_pixels := 1080, fps := 60 }).2.current_mode_index_
        = secondSelectedInstance.current_mode_index_ ∧
    (SetDisplayAttributes echoHardware secondSelectedInstance
      { x_pixels := 0, y_pixels := 1080, fps := 60 }).2.connector_info_.modes
        = secondSelectedInstance.connector_info_.modes ∧
    (SetDisplayAttributes echoHardware secondSelectedInstance
      { x_pixels := 0, y_pixels := 1080, fps := 60 }).2.display_attributes_
        = secondSelectedInstance.display_attributes_ ∧
    (SetDisplayAttributes echoHardware secondSelectedInstance
      { x_pixels := 0, y_pixels := 1080, fps := 60 }).2 = secondSelectedInstance :=
  C1_zero_size_rejected echoHardware secondSelectedInstance
    { x_pixels := 0, y_pixels := 1080, fps := 60 } (Or.inl rfl)

/-- C4: the result of `SetDisplayAttributes` is `kErrorParameters` when width
or height is zero; otherwise `kErrorNone` when the mode list has an exact
match; otherwise `kErrorHardware` when the mode-table update returns non-zero;
otherwise `kErrorNotSupported` when the reloaded list has no exact match;
otherwise `kErrorNone`. It is `kErrorParameters` only for a zero width or
height, and never any other value than these four. -/
theorem C4_SetDisplayAttributes_result (c : Collaborators) (s : HWVirtualDRM)
    (da : HWDisplayAttributes) :
    (SetDisplayAttributes c s da).1 =
      (if da.x_pixels = 0 ∨ da.y_pixels = 0 then kErrorParameters
       else if hasExactMatch s.connector_info_.modes da then kErrorNone
       else if c.drmIoctl s.calls_
          { connector_id := s.token_.conn_id, flags := SDE_DRM_WB_CFG_FLAGS_CONNECTED,
            count_modes := s.connector_info_.modes.length + 1,
            modes := s.connector_info_.modes ++ [synthesizeMode da] } ≠ 0 then kErrorHardware
       else if ¬ hasExactMatch (SetWbConfigs.reloadedInfo c s da).modes da then
         kErrorNotSupported
       else kErrorNone) ∧
    ((SetDisplayAttributes c s da).1 = kErrorParameters ↔
      (da.x_pixels = 0 ∨ da.y_pixels = 0)) ∧
    ((SetDisplayAttributes c s da).1 = kErrorNone ∨
      (SetDisplayAttributes c s da).1 = kErrorParameters ∨
      (SetDisplayAttributes c s da).1 = kErrorHardware ∨
      (SetDisplayAttributes c s da).1 = kErrorNotSupported) := by
  have hret : c.drmIoctl s.calls_
      { connector_id := s.token_.conn_id, flags := SDE_DRM_WB_CFG_FLAGS_CONNECTED,
        count_modes := s.connector_info_.modes.length + 1,
        modes := s.connector_info_.modes ++ [synthesizeMode da] } = SetWbConfigs.ret c s da := by
    simp [SetWbConfigs.ret, wbConfig, SetWbConfigs.pushed]
  have hmodes := (SetWbConfigs.afterReload_frame c s da).1
  have h1 := GetModeIndex_neg_iff_not_hasExactMatch s da
  have h2 := GetModeIndex_neg_iff_not_hasExactMatch (SetWbConfigs.afterReload c s da) da
  rw [hmodes] at h2
  rw [hret, SetDisplayAttributes_eq]
  by_cases hz : da.x_pixels = 0 ∨ da.y_pixels = 0
  · simp [hz]
  · by_cases hm : hasExactMatch s.connector_info_.modes da
    · have hn : ¬ GetModeIndex s da < 0 := by rw [h1]; simpa using hm
      simp [hz, hm, hn, SetDisplayAttributes.finish]
    · have hn : GetModeIndex s da < 0 := h1.2 hm
      by_cases hr : SetWbConfigs.ret c s da = 0
      · by_cases hm2 : hasExactMatch (SetWbConfigs.reloadedInfo c s da).modes da
        · have hn2 : ¬ GetModeIndex (SetWbConfigs.afterReload c s da) da < 0 := by
            rw [h2]; simpa using hm2
          simp [hz, hm, hn, hr, hm2, hn2, SetDisplayAttributes.finish]
        · have hn2 : GetModeIndex (SetWbConfigs.afterReload c s da) da < 0 := h2.2 hm2
          simp [hz, hm, hn, hr, hm2, hn2]
      · simp [hz, hm, hn, hr]

/-- C5: whenever `SetDisplayAttributes` returns an error, the selected mode
index after the call is the one from before the call. -/
theorem C5_error_keeps_current_mode_index (c : Collaborators) (s : HWVirtualDRM)
    (da : HWDisplayAttributes) (herr : (SetDisplayAttributes c s da).1 ≠ kErrorNone) :
    (SetDisplayAttributes c s da).2.current_mode_index_ = s.current_mode_index_ :=
  SetDisplayAttributes_error_index c s da herr

/-- C5 where the hardware rejects a new 1280x720 mode while index 1 is
selected: the call fails and index 1 stays selected. -/
theorem C5_error_keeps_current_mode_index_witness :
    (SetDisplayAttributes rejectingHardware secondSelectedInstance hd60).1 ≠ kErrorNone ∧
    (SetDisplayAttributes rejectingHardware secondSelectedInstance hd60).2.current_mode_index_
      = secondSelectedInstance.current_mode_index_ :=
  ⟨by decide,
   C5_error_keeps_current_mode_index rejectingHardware secondSelectedInstance hd60 (by decide)⟩

/-! ## C6, C7, C8: registration and negotiation -/

/-- C6, the code at a rejected update: on an instance with an empty mode
table, registering 1920x1080 at 30 fps under hardware that rejects the update
returns `kErrorHardware`, yet the instance's own mode list now holds the
synthesized mode and `GetModeIndex` for the same request, not found before,
returns 0. The cache was not rebuilt, so a repeated request succeeds by match
and selects index 0 of an empty cache, where the destination rectangle cannot
be read. -/
theorem C6_rejected_update_keeps_pushed_mode :
    emptyInstance.connector_info_.modes = [] ∧
    GetModeIndex emptyInstance fullHD30 = -1 ∧
    (SetWbConfigs rejectingHardware emptyInstance fullHD30).1 = kErrorHardware ∧
    (SetWbConfigs rejectingHardware emptyInstance fullHD30).2.connector_info_.modes
      = [mode1080p30] ∧
    GetModeIndex (SetWbConfigs rejectingHardware emptyInstance fullHD30).2 fullHD30 = 0 ∧
    (SetDisplayAttributes rejectingHardware
      (SetDisplayAttributes rejectingHardware emptyInstance fullHD30).2 fullHD30).1
        = kErrorNone ∧
    (SetDisplayAttributes rejectingHardware
      (SetDisplayAttributes rejectingHardware emptyInstance fullHD30).2 fullHD30).2.display_attributes_
        = [] ∧
    ConfigureWbConnectorDestRect (SetDisplayAttributes rejectingHardware
      (SetDisplayAttributes rejectingHardware emptyInstance fullHD30).2 fullHD30).2 = none := by
  decide

/-- A non-negative result of `GetModeIndex` is the first matching index. -/
theorem GetModeIndex_nonneg (s : HWVirtualDRM) (da : HWDisplayAttributes)
    (h : ¬ GetModeIndex s da < 0) :
    ∃ i : Nat, ∃ m, GetModeIndex s da = (i : Int) ∧ (GetModeIndex s da).toNat = i ∧
      i < s.connector_info_.modes.length ∧ s.connector_info_.modes[i]? = some m ∧
      modeMatches da m = true ∧
      ∀ j m1, j < i → s.connector_info_.modes[j]? = some m1 → modeMatches da m1 = false := by
  rcases GetModeIndex_spec s da with ⟨h1, _⟩ | ⟨k, m, hk, hm, hres, hmin⟩
  · rw [h1] at h
    exact absurd (by decide) h
  · exact ⟨k, m, hres, by rw [hres]; rfl, (List.getElem?_eq_some_iff.1 hk).1, hk, hm, hmin⟩

/-- C7: when a request is not found and its registration returns
`kErrorNone`, `GetModeIndex` for the same request then returns an index `i`
inside the mode list, the mode at `i` equals the request on width, height and
refresh rate, and `i` is the selected index. -/
theorem C7_registration_round_trip (c : Collaborators) (s : HWVirtualDRM)
    (da : HWDisplayAttributes) (_hmiss : GetModeIndex s da = -1)
    (hok : (SetWbConfigs c s da).1 = kErrorNone) :
    ∃ i : Nat, ∃ m,
      GetModeIndex (SetWbConfigs c s da).2 da = (i : Int) ∧
      i < (SetWbConfigs c s da).2.connector_info_.modes.length ∧
      (SetWbConfigs c s da).2.connector_info_.modes[i]? = some m ∧
      da.x_pixels = m.hdisplay ∧ da.y_pixels = m.vdisplay ∧ da.fps = m.vrefresh ∧
      (SetWbConfigs c s da).2.current_mode_index_ = i := by
  rw [SetWbConfigs_eq] at hok ⊢
  by_cases hr : SetWbConfigs.ret c s da ≠ 0
  · rw [if_pos hr] at hok
    cases hok
  · rw [if_neg hr] at hok ⊢
    by_cases hn : GetModeIndex (SetWbConfigs.afterReload c s da) da < 0
    · rw [if_pos hn] at hok
      cases hok
    · rw [if_neg hn]
      obtain ⟨i, m, hres, hnat, hlt, hget, hm, _⟩ :=
        GetModeIndex_nonneg (SetWbConfigs.afterReload c s da) da hn
      have hf := (modeMatches_iff da m).1 hm
      refine ⟨i, m, ?_, hlt, hget, hf.1, hf.2.1, hf.2.2, hnat⟩
      rw [← hres]
      exact GetModeIndex_congr _ _ da rfl

/-- C7 on an empty mode table with hardware that reloads the list it was
given: 1920x1080 at 30 fps is not found, its registration succeeds, and the
same request is then found at the selected index. -/
theorem C7_registration_round_trip_witness :
    GetModeIndex emptyInstance fullHD30 = -1 ∧
    (SetWbConfigs echoHardware emptyInstance fullHD30).1 = kErrorNone ∧
    ∃ i : Nat, ∃ m,
      GetModeIndex (SetWbConfigs echoHardware emptyInstance fullHD30).2 fullHD30 = (i : Int) ∧
      i < (SetWbConfigs echoHardware emptyInstance fullHD30).2.connector_info_.modes.length ∧
      (SetWbConfigs echoHardware emptyInstance fullHD30).2.connector_info_.modes[i]? = some m ∧
      fullHD30.x_pixels = m.hdisplay ∧ fullHD30.y_pixels = m.vdisplay ∧
      fullHD30.fps = m.vrefresh ∧
      (SetWbConfigs echoHardware emptyInstance fullHD30).2.current_mode_index_ = i :=
  ⟨by decide, by decide,
   C7_registration_round_trip echoHardware emptyInstance fullHD30 (by decide) (by decide)⟩

/-- C8: a request of non-zero size that equals a mode of the list on width,
height and refresh rate returns `kErrorNone`; the only calls recorded are the
two cache refreshes of the base class, so no mode-table update and no reload
is issued; the connector info is as before; and the selected index is the
first matching index. In the scenario of an empty mode table and hardware
that accepts the update and reloads the list it was given, the first request
for 1920x1080 at 30 fps selects index 0 with one update in all, and the same
request again leaves index 0 selected and the number of updates at one. -/
theorem C8_match_selects_without_update :
    (∀ (c : Collaborators) (s : HWVirtualDRM) (da : HWDisplayAttributes),
      da.x_pixels ≠ 0 → da.y_pixels ≠ 0 → hasExactMatch s.connector_info_.modes da →
      ∃ i : Nat, ∃ m,
        (SetDisplayAttributes c s da).1 = kErrorNone ∧
        (SetDisplayAttributes c s da).2.calls_
          = s.calls_ ++ [Call.PopulateHWPanelInfo, Call.UpdateMixerAttributes] ∧
        (SetDisplayAttributes c s da).2.calls_.countP isModeTableUpdate
          = s.calls_.countP isModeTableUpdate ∧
        (SetDisplayAttributes c s da).2.calls_.countP isReload = s.calls_.countP isReload ∧
        (SetDisplayAttributes c s da).2.connector_info_ = s.connector_info_ ∧
        (SetDisplayAttributes c s da).2.current_mode_index_ = i ∧
        s.connector_info_.modes[i]? = some m ∧
        (da.x_pixels = m.hdisplay ∧ da.y_pixels = m.vdisplay ∧ da.fps = m.vrefresh) ∧
        ∀ j m1, j < i → s.connector_info_.modes[j]? = some m1 →
          ¬ (da.x_pixels = m1.hdisplay ∧ da.y_pixels = m1.vdisplay ∧ da.fps = m1.vrefresh)) ∧
    (emptyInstance.connector_info_.modes = [] ∧
      (SetDisplayAttributes echoHardware emptyInstance fullHD30).1 = kErrorNone ∧
      (SetDisplayAttributes echoHardware emptyInstance fullHD30).2.current_mode_index_ = 0 ∧
      (SetDisplayAttributes echoHardware emptyInstance fullHD30).2.connector_info_.modes
        = [mode1080p30] ∧
      (SetDisplayAttributes echoHardware emptyInstance fullHD30).2.calls_.countP
        isModeTableUpdate = 1 ∧
      (SetDisplayAttributes echoHardware
        (SetDisplayAttributes echoHardware emptyInstance fullHD30).2 fullHD30).1 = kErrorNone ∧
      (SetDisplayAttributes echoHardware
        (SetDisplayAttributes echoHardware emptyInstance fullHD30).2
          fullHD30).2.current_mode_index_ = 0 ∧
      (SetDisplayAttributes echoHardware
        (SetDisplayAttributes echoHardware emptyInstance fullHD30).2
          fullHD30).2.calls_.countP isModeTableUpdate = 1) := by
  refine ⟨?_, by decide⟩
  intro c s da hx hy hmatch
  have hn : ¬ GetModeIndex s da < 0 := by
    rw [GetModeIndex_neg_iff_not_hasExactMatch]
    simpa using hmatch
  obtain ⟨i, m, _, hnat, _, hget, hm, hmin⟩ := GetModeIndex_nonneg s da hn
  have hz : ¬ (da.x_pixels = 0 ∨ da.y_pixels = 0) := by
    rintro (h | h)
    · exact hx h
    · exact hy h
  refine ⟨i, m, ?_⟩
  rw [SetDisplayAttributes_eq]
  rw [if_neg hz, if_neg hn]
  refine ⟨rfl, by simp [SetDisplayAttributes.finish, HWVirtualDRM.call],
    by simp [SetDisplayAttributes.finish, HWVirtualDRM.call, isModeTableUpdate],
    by simp [SetDisplayAttributes.finish, HWVirtualDRM.call, isReload], rfl, hnat, hget,
    (modeMatches_iff da m).1 hm, ?_⟩
  intro j m1 hj hgetj hsame
  have := hmin j m1 hj hgetj
  rw [(modeMatches_iff da m1).2 hsame] at this
  cases this

/-- C8 at an instance whose two modes both equal 1920x1080 at 30 fps and whose
second mode is selected: the request is matched at index 0 without any
hardware call. -/
theorem C8_match_selects_without_update_witness :
    fullHD30.x_pixels ≠ 0 ∧ fullHD30.y_pixels ≠ 0 ∧
    hasExactMatch secondSelectedInstance.connector_info_.modes fullHD30 ∧
    ∃ i : Nat, ∃ m,
      (SetDisplayAttributes rejectingHardware secondSelectedInstance fullHD30).1 = kErrorNone ∧
      (SetDisplayAttributes rejectingHardware secondSelectedInstance fullHD30).2.calls_
        = secondSelectedInstance.calls_ ++
          [Call.PopulateHWPanelInfo, Call.UpdateMixerAttributes] ∧
      (SetDisplayAttributes rejectingHardware secondSelectedInstance fullHD30).2.calls_.countP
        isModeTableUpdate = secondSelectedInstance.calls_.countP isModeTableUpdate ∧
      (SetDisplayAttributes rejectingHardware secondSelectedInstance fullHD30).2.calls_.countP
        isReload = secondSelectedInstance.calls_.countP isReload ∧
      (SetDisplayAttributes rejectingHardware secondSelectedInstance fullHD30).2.connector_info_
        = secondSelectedInstance.connector_info_ ∧
      (SetDisplayAttributes rejectingHardware secondSelectedInstance
        fullHD30).2.current_mode_index_ = i ∧
      secondSelectedInstance.connector_info_.modes[i]? = some m ∧
      (fullHD30.x_pixels = m.hdisplay ∧ fullHD30.y_pixels = m.vdisplay ∧
        fullHD30.fps = m.vrefresh) ∧
      ∀ j m1, j < i → secondSelectedInstance.connector_info_.modes[j]? = some m1 →
        ¬ (fullHD30.x_pixels = m1.hdisplay ∧ fullHD30.y_pixels = m1.vdisplay ∧
          fullHD30.fps = m1.vrefresh) :=
  ⟨by decide, by decide, by decide,
   C8_match_selects_without_update.1 rejectingHardware secondSelectedInstance fullHD30
      (by decide) (by decide) (by decide)⟩

/-! ## C9: the selected index stays inside the mode list -/

/-- C9, as stated, fails: the first request succeeds and selects index 0;
the second request is accepted by the hardware, which then reloads an empty
list, so the call returns `kErrorNotSupported` with index 0 still selected
and no mode left in the list. -/
theorem C9_counterexample :
    (SetDisplayAttributes forgetfulHardware emptyInstance fullHD30).1 = kErrorNone ∧
    (SetDisplayAttributes forgetfulHardware
      (SetDisplayAttributes forgetfulHardware emptyInstance fullHD30).2 hd60).1
        = kErrorNotSupported ∧
    ¬ ((runSetDisplayAttributes forgetfulHardware
        (SetDisplayAttributes forgetfulHardware emptyInstance fullHD30).2
        [hd60]).current_mode_index_ <
      (runSetDisplayAttributes forgetfulHardware
        (SetDisplayAttributes forgetfulHardware emptyInstance fullHD30).2
        [hd60]).connector_info_.modes.length) := by
  decide

/-- A successful `SetDisplayAttributes` selects an index inside the list. -/
theorem SetDisplayAttributes_ok_valid (c : Collaborators) (s : HWVirtualDRM)
    (da : HWDisplayAttributes) (hok : (SetDisplayAttributes c s da).1 = kErrorNone) :
    (SetDisplayAttributes c s da).2.current_mode_index_ <
      (SetDisplayAttributes c s da).2.connector_info_.modes.length := by
  rw [SetDisplayAttributes_eq] at hok ⊢
  by_cases hz : da.x_pixels = 0 ∨ da.y_pixels = 0
  · rw [if_pos hz] at hok
    cases hok
  · rw [if_neg hz] at hok ⊢
    by_cases hn : GetModeIndex s da < 0
    · rw [if_pos hn] at hok ⊢
      by_cases hr : SetWbConfigs.ret c s da ≠ 0
      · rw [if_pos hr] at hok
        cases hok
      · rw [if_neg hr] at hok ⊢
        by_cases hn2 : GetModeIndex (SetWbConfigs.afterReload c s da) da < 0
        · rw [if_pos hn2] at hok
          cases hok
        · rw [if_neg hn2]
          obtain ⟨i, m, _, hnat, hlt, _⟩ :=
            GetModeIndex_nonneg (SetWbConfigs.afterReload c s da) da hn2
          simpa [SetDisplayAttributes.finish, HWVirtualDRM.call, hnat] using hlt
    · rw [if_neg hn]
      obtain ⟨i, m, _, hnat, hlt, _⟩ := GetModeIndex_nonneg s da hn
      simpa [SetDisplayAttributes.finish, HWVirtualDRM.call, hnat] using hlt

/-- Under hardware whose reload never returns fewer modes than the update
before it submitted, `SetDisplayAttributes` keeps a selected index inside the
list. -/
theorem SetDisplayAttributes_preserves_valid (c : Collaborators)
    (hreload : ∀ calls cfg conn_id, cfg.modes.length ≤
      (c.GetConnectorInfo (calls ++ [Call.drmIoctl_SDE_WB_CONFIG cfg]) conn_id).modes.length)
    (s : HWVirtualDRM) (da : HWDisplayAttributes)
    (hs : s.current_mode_index_ < s.connector_info_.modes.length) :
    (SetDisplayAttributes c s da).2.current_mode_index_ <
      (SetDisplayAttributes c s da).2.connector_info_.modes.length := by
  by_cases hok : (SetDisplayAttributes c s da).1 = kErrorNone
  · exact SetDisplayAttributes_ok_valid c s da hok
  · rw [SetDisplayAttributes_error_index c s da hok]
    rw [SetDisplayAttributes_eq] at hok ⊢
    by_cases hz : da.x_pixels = 0 ∨ da.y_pixels = 0
    · rw [if_pos hz]
      exact hs
    · rw [if_neg hz] at hok ⊢
      by_cases hn : GetModeIndex s da < 0
      · rw [if_pos hn] at hok ⊢
        by_cases hr : SetWbConfigs.ret c s da ≠ 0
        · rw [if_pos hr]
          simp [SetWbConfigs.afterUpdate, HWVirtualDRM.call, SetWbConfigs.pushed]
          omega
        · rw [if_neg hr] at hok ⊢
          by_cases hn2 : GetModeIndex (SetWbConfigs.afterReload c s da) da < 0
          · rw [if_pos hn2]
            have h := hreload s.calls_ (wbConfig (SetWbConfigs.pushed s da)) s.token_.conn_id
            have hinfo := (SetWbConfigs.afterReload_frame c s da).1
            simp only [hinfo]
            have hcalls : (SetWbConfigs.afterUpdate s da).calls_
                = s.calls_ ++ [Call.drmIoctl_SDE_WB_CONFIG (wbConfig (SetWbConfigs.pushed s da))] := by
              simp [SetWbConfigs.afterUpdate, HWVirtualDRM.call, SetWbConfigs.pushed]
            rw [SetWbConfigs.reloadedInfo, hcalls]
            have hlen : (wbConfig (SetWbConfigs.pushed s da)).modes.length
                = s.connector_info_.modes.length + 1 := by
              simp [wbConfig, SetWbConfigs.pushed]
            omega
          · rw [if_neg hn2] at hok
            exact absurd rfl hok
      · rw [if_neg hn] at hok
        exact absurd rfl hok

/-- C9, amended: once a `SetDisplayAttributes` call has succeeded, after
every further sequence of `SetDisplayAttributes` calls, successful or failed,
the selected index is inside the connector mode list, provided every reload
that follows a mode-table update returns at least as many modes as that
update submitted. -/
theorem C9_current_mode_index_valid (c : Collaborators)
    (hreload : ∀ calls cfg conn_id, cfg.modes.length ≤
      (c.GetConnectorInfo (calls ++ [Call.drmIoctl_SDE_WB_CONFIG cfg]) conn_id).modes.length)
    (s : HWVirtualDRM) (da : HWDisplayAttributes) (rest : List HWDisplayAttributes)
    (hok : (SetDisplayAttributes c s da).1 = kErrorNone) :
    (runSetDisplayAttributes c (SetDisplayAttributes c s da).2 rest).current_mode_index_ <
      (runSetDisplayAttributes c (SetDisplayAttributes c s da).2
        rest).connector_info_.modes.length := by
  have hstart := SetDisplayAttributes_ok_valid c s da hok
  generalize (SetDisplayAttributes c s da).2 = t at hstart
  induction rest generalizing t with
  | nil => exact hstart
  | cons d rest ih =>
    exact ih _ (SetDisplayAttributes_preserves_valid c hreload t d hstart)

/-- C9, amended, under hardware that reloads the list it was given: after a
successful request on an empty table, a new mode, a zero-sized request and a
repeat of the first request leave the selected index inside the list. -/
theorem C9_current_mode_index_valid_witness :
    (∀ calls cfg conn_id, cfg.modes.length ≤
      (echoHardware.GetConnectorInfo (calls ++ [Call.drmIoctl_SDE_WB_CONFIG cfg])
        conn_id).modes.length) ∧
    (SetDisplayAttributes echoHardware emptyInstance fullHD30).1 = kErrorNone ∧
    (runSetDisplayAttributes echoHardware
      (SetDisplayAttributes echoHardware emptyInstance fullHD30).2
      [hd60, zeroWidth60, fullHD30]).current_mode_index_ <
    (runSetDisplayAttributes echoHardware
      (SetDisplayAttributes echoHardware emptyInstance fullHD30).2
      [hd60, zeroWidth60, fullHD30]).connector_info_.modes.length :=
  ⟨by intro calls cfg conn_id; simp [echoHardware, lastSubmitted],
   by decide,
   C9_current_mode_index_valid echoHardware
     (by intro calls cfg conn_id; simp [echoHardware, lastSubmitted])
     emptyInstance fullHD30 [hd60, zeroWidth60, fullHD30] (by decide)⟩

/-! ## Commit, Validate, PowerOn: lemmas -/

/-- `Commit` when the cache has an entry for the selected index. -/
theorem Commit_of_cached (c : Collaborators) (s : HWVirtualDRM) (hw_layers : HWLayers)
    (attrs : HWDisplayAttributes)
    (h : s.display_attributes_[s.current_mode_index_]? = some attrs) :
    Commit c s hw_layers = some
      (c.AtomicCommit (s.calls_ ++ Commit.callsBeforeSubmit c s hw_layers attrs) hw_layers,
       { s with
         first_cycle_ := false,
         calls_ := s.calls_ ++ (Commit.callsBeforeSubmit c s hw_layers attrs ++
           [Call.AtomicCommit hw_layers, Call.UnregisterNext]) }) := by
  cases hfc : s.first_cycle_ <;>
  simp [Commit, ConfigureWbConnectorDestRect, ConfigureWbConnectorFbId,
      ConfigureWbConnectorSecureMode, firstCycleSetup, HWVirtualDRM.call, hfc, h,
      Commit.callsBeforeSubmit, Commit.fbId, firstCycleCalls, frameProperties]

/-- `Commit` has no result when the cache has no entry for the selected
index. -/
theorem Commit_of_not_cached (c : Collaborators) (s : HWVirtualDRM) (hw_layers : HWLayers)
    (h : s.display_attributes_[s.current_mode_index_]? = none) :
    Commit c s hw_layers = none := by
  cases hfc : s.first_cycle_ <;>
  simp [Commit, ConfigureWbConnectorDestRect, ConfigureWbConnectorFbId,
      ConfigureWbConnectorSecureMode, firstCycleSetup, HWVirtualDRM.call, hfc, h]

/-- `Validate` when the cache has an entry for the selected index. -/
theorem Validate_of_cached (c : Collaborators) (s : HWVirtualDRM) (hw_layers : HWLayers)
    (attrs : HWDisplayAttributes)
    (h : s.display_attributes_[s.current_mode_index_]? = some attrs) :
    Validate c s hw_layers = some
      (c.Validate (s.calls_ ++ Validate.callsBeforeDryRun c s hw_layers attrs) hw_layers,
       { s with
         calls_ := s.calls_ ++ (Validate.callsBeforeDryRun c s hw_layers attrs ++
           [Call.BaseValidate hw_layers]) }) := by
  cases hfc : s.first_cycle_ <;>
  simp [Validate, ConfigureWbConnectorDestRect, ConfigureWbConnectorFbId,
      ConfigureWbConnectorSecureMode, firstCycleSetup, HWVirtualDRM.call, hfc, h,
      Validate.callsBeforeDryRun, Validate.fbId, firstCycleCalls, frameProperties]

/-- `Validate` has no result when the cache has no entry for the selected
index. -/
theorem Validate_of_not_cached (c : Collaborators) (s : HWVirtualDRM) (hw_layers : HWLayers)
    (h : s.display_attributes_[s.current_mode_index_]? = none) :
    Validate c s hw_layers = none := by
  cases hfc : s.first_cycle_ <;>
  simp [Validate, ConfigureWbConnectorDestRect, ConfigureWbConnectorFbId,
      ConfigureWbConnectorSecureMode, firstCycleSetup, HWVirtualDRM.call, hfc, h]

/-- `SetDisplayAttributes` never writes `first_cycle_`. -/
theorem SetDisplayAttributes_first_cycle (c : Collaborators) (s : HWVirtualDRM)
    (da : HWDisplayAttributes) :
    (SetDisplayAttributes c s da).2.first_cycle_ = s.first_cycle_ := by
  have h3 := (SetWbConfigs.afterReload_frame c s da).2.2.1
  rw [SetDisplayAttributes_eq]
  split_ifs
  · rfl
  · simp [SetWbConfigs.afterUpdate, HWVirtualDRM.call, SetWbConfigs.pushed]
  · exact h3
  · simpa [SetDisplayAttributes.finish, HWVirtualDRM.call] using h3
  · simp [SetDisplayAttributes.finish, HWVirtualDRM.call]

/-- No operation takes an instance in steady state back to the first cycle. -/
theorem step_keeps_steady (c : Collaborators) (s t : HWVirtualDRM) (op : Op)
    (hs : s.first_cycle_ = false) (hstep : step c s op = some t) :
    t.first_cycle_ = false := by
  cases op with
  | Commit hw_layers =>
    cases hget : s.display_attributes_[s.current_mode_index_]? with
    | none => simp [step, Commit_of_not_cached c s hw_layers hget] at hstep
    | some attrs =>
      simp [step, Commit_of_cached c s hw_layers attrs hget] at hstep
      rw [← hstep]
  | Validate hw_layers =>
    cases hget : s.display_attributes_[s.current_mode_index_]? with
    | none => simp [step, Validate_of_not_cached c s hw_layers hget] at hstep
    | some attrs =>
      simp [step, Validate_of_cached c s hw_layers attrs hget] at hstep
      rw [← hstep]
      exact hs
  | SetDisplayAttributes da =>
    simp [step] at hstep
    rw [← hstep, SetDisplayAttributes_first_cycle]
    exact hs
  | PowerOn =>
    simp [step, PowerOn, hs, HWVirtualDRM.call] at hstep
    rw [← hstep]

/-- No sequence of operations takes an instance in steady state back to the
first cycle. -/
theorem runOps_keeps_steady (c : Collaborators) (ops : List Op) :
    ∀ s t : HWVirtualDRM, s.first_cycle_ = false → runOps c s ops = some t →
      t.first_cycle_ = false := by
  induction ops with
  | nil =>
    intro s t hs hrun
    simp [runOps] at hrun
    rw [← hrun]
    exact hs
  | cons op rest ih =>
    intro s t hs hrun
    cases hstep : step c s op with
    | none => simp [runOps, hstep] at hrun
    | some s1 =>
      simp [runOps, hstep] at hrun
      exact ih s1 t (step_keeps_steady c s s1 op hs hstep) hrun

/-! ## C10: the first-cycle state machine -/

/-- C10, as stated, fails: the instance a successful `Init` leaves on an empty
mode table is in its first cycle and has no cache entry for the selected
index 0; `Commit` reads the cache past its end there and has no result, so
there is no state after it in which `first_cycle_` is false. -/
theorem C10_counterexample :
    (Init baseInitOk emptyInstance).1 = kErrorNone ∧
    freshEmptyInstance.first_cycle_ = true ∧
    freshEmptyInstance.current_mode_index_ = 0 ∧
    freshEmptyInstance.display_attributes_ = [] ∧
    Commit echoHardware freshEmptyInstance secureFrame = none ∧
    ¬ ∃ err s1, Commit echoHardware freshEmptyInstance secureFrame = some (err, s1) ∧
      s1.first_cycle_ = false := by
  refine ⟨by decide, by decide, by decide, by decide, by decide, ?_⟩
  rintro ⟨err, s1, h, _⟩
  have hnone : Commit echoHardware freshEmptyInstance secureFrame = none := by decide
  rw [hnone] at h
  cases h

/-- C10, amended: on an instance in its first cycle whose selected index has
a cache entry, `Commit` returns, whatever the submit answers; the calls it
adds hold exactly one pipe assignment, `CONNECTOR_SET_CRTC (conn_id,
crtc_id)`, and exactly one power-mode property, `CONNECTOR_SET_POWER_MODE
(conn_id, ON)`; and it leaves `first_cycle_` false. After any further
sequence of completed operations `first_cycle_` is still false and a `Commit`
on an instance whose selected index has a cache entry returns and adds
neither property. No completed operation among `Commit`, `Validate`,
`SetDisplayAttributes` and `PowerOn` turns a false `first_cycle_` true;
every operation completes when the selected index has a cache entry, and
`SetDisplayAttributes` and `PowerOn` always complete. -/
theorem C10_first_cycle_once :
    (∀ (c : Collaborators) (s : HWVirtualDRM) (hw_layers : HWLayers),
      s.first_cycle_ = true →
      s.current_mode_index_ < s.display_attributes_.length →
      ∃ err s1 added,
        Commit c s hw_layers = some (err, s1) ∧
        s1.calls_ = s.calls_ ++ added ∧
        added.countP isSetCrtc = 1 ∧
        Call.CONNECTOR_SET_CRTC s.token_.conn_id s.token_.crtc_id ∈ added ∧
        added.countP isSetPowerMode = 1 ∧
        Call.CONNECTOR_SET_POWER_MODE s.token_.conn_id DRMPowerMode.ON ∈ added ∧
        s1.first_cycle_ = false ∧
        ∀ ops s2, runOps c s1 ops = some s2 →
          s2.first_cycle_ = false ∧
          ∀ hw_layers2, s2.current_mode_index_ < s2.display_attributes_.length →
            ∃ err2 s3 added2,
              Commit c s2 hw_layers2 = some (err2, s3) ∧
              s3.calls_ = s2.calls_ ++ added2 ∧
              added2.countP isSetCrtc = 0 ∧
              added2.countP isSetPowerMode = 0 ∧
              s3.first_cycle_ = false) ∧
    (∀ (c : Collaborators) (t t1 : HWVirtualDRM) (op : Op),
      t.first_cycle_ = false → step c t op = some t1 → t1.first_cycle_ = false) ∧
    (∀ (c : Collaborators) (t : HWVirtualDRM) (op : Op),
      t.current_mode_index_ < t.display_attributes_.length →
      ∃ t1, step c t op = some t1) ∧
    (∀ (c : Collaborators) (t : HWVirtualDRM) (da : HWDisplayAttributes),
      (∃ t1, step c t (Op.SetDisplayAttributes da) = some t1) ∧
      ∃ t2, step c t Op.PowerOn = some t2) := by
  refine ⟨?_, fun c t t1 op ht hstep => step_keeps_steady c t t1 op ht hstep, ?_,
    fun c t da => ⟨⟨_, rfl⟩, ⟨_, rfl⟩⟩⟩
  · intro c s hw_layers hfresh hsel
    obtain ⟨attrs, hget⟩ :
        ∃ attrs, s.display_attributes_[s.current_mode_index_]? = some attrs :=
      ⟨_, List.getElem?_eq_getElem hsel⟩
    refine ⟨_, _, _, Commit_of_cached c s hw_layers attrs hget, rfl, ?_, ?_, ?_, ?_, rfl, ?_⟩
    · simp [Commit.callsBeforeSubmit, firstCycleCalls, frameProperties, hfresh, isSetCrtc]
    · simp [Commit.callsBeforeSubmit, firstCycleCalls, hfresh]
    · simp [Commit.callsBeforeSubmit, firstCycleCalls, frameProperties, hfresh, isSetPowerMode]
    · simp [Commit.callsBeforeSubmit, firstCycleCalls, hfresh]
    · intro ops s2 hrun
      have hs2 : s2.first_cycle_ = false := runOps_keeps_steady c ops _ s2 rfl hrun
      refine ⟨hs2, ?_⟩
      intro hw_layers2 hsel2
      obtain ⟨attrs2, hget2⟩ :
          ∃ attrs2, s2.display_attributes_[s2.current_mode_index_]? = some attrs2 :=
        ⟨_, List.getElem?_eq_getElem hsel2⟩
      refine ⟨_, _, _, Commit_of_cached c s2 hw_layers2 attrs2 hget2, rfl, ?_, ?_, rfl⟩
      · simp [Commit.callsBeforeSubmit, firstCycleCalls, frameProperties, hs2, isSetCrtc]
      · simp [Commit.callsBeforeSubmit, firstCycleCalls, frameProperties, hs2, isSetPowerMode]
  · intro c t op hsel
    obtain ⟨attrs, hget⟩ :
        ∃ attrs, t.display_attributes_[t.current_mode_index_]? = some attrs :=
      ⟨_, List.getElem?_eq_getElem hsel⟩
    cases op with
    | Commit hw_layers =>
      cases hstep : step c t (Op.Commit hw_layers) with
      | none => simp [step, Commit_of_cached c t hw_layers attrs hget] at hstep
      | some t1 => exact ⟨t1, rfl⟩
    | Validate hw_layers =>
      cases hstep : step c t (Op.Validate hw_layers) with
      | none => simp [step, Validate_of_cached c t hw_layers attrs hget] at hstep
      | some t1 => exact ⟨t1, rfl⟩
    | SetDisplayAttributes da => exact ⟨_, rfl⟩
    | PowerOn => exact ⟨_, rfl⟩

/-- C10 on a fresh instance with one cached mode under hardware that rejects
every frame: the first `Commit` returns the submit's error, adds each of the
two first-cycle properties once and leaves `first_cycle_` false. -/
theorem C10_first_cycle_once_witness :
    freshCachedInstance.first_cycle_ = true ∧
    freshCachedInstance.current_mode_index_ < freshCachedInstance.display_attributes_.length ∧
    (Commit failingCommitHardware freshCachedInstance {}).map Prod.fst = some kErrorHardware ∧
    ∃ err s1 added,
      Commit failingCommitHardware freshCachedInstance {} = some (err, s1) ∧
      s1.calls_ = freshCachedInstance.calls_ ++ added ∧
      added.countP isSetCrtc = 1 ∧
      Call.CONNECTOR_SET_CRTC freshCachedInstance.token_.conn_id freshCachedInstance.token_.crtc_id
        ∈ added ∧
      added.countP isSetPowerMode = 1 ∧
      Call.CONNECTOR_SET_POWER_MODE freshCachedInstance.token_.conn_id DRMPowerMode.ON ∈ added ∧
      s1.first_cycle_ = false :=
  ⟨by decide, by decide, by decide,
   (C10_first_cycle_once.1 failingCommitHardware freshCachedInstance {} (by decide)
      (by decide)).imp fun _ h => h.imp fun _ h => h.imp fun _ h =>
        ⟨h.1, h.2.1, h.2.2.1, h.2.2.2.1, h.2.2.2.2.1, h.2.2.2.2.2.1, h.2.2.2.2.2.2.1⟩⟩

/-! ## C11: Validate is a dry run -/

/-- C11, as stated, fails: on the instance a successful `Init` leaves on an
empty mode table the selected index 0 has no cache entry; `Validate` reads
the cache past its end there and has no result, so there is no state after it
to compare with the state before. -/
theorem C11_counterexample :
    (Init baseInitOk emptyInstance).1 = kErrorNone ∧
    freshEmptyInstance.current_mode_index_ = 0 ∧
    freshEmptyInstance.display_attributes_ = [] ∧
    Validate echoHardware freshEmptyInstance secureFrame = none ∧
    ¬ ∃ err s1, Validate echoHardware freshEmptyInstance secureFrame = some (err, s1) ∧
      s1.first_cycle_ = freshEmptyInstance.first_cycle_ ∧
      s1.current_mode_index_ = freshEmptyInstance.current_mode_index_ ∧
      s1.connector_info_.modes = freshEmptyInstance.connector_info_.modes := by
  refine ⟨by decide, by decide, by decide, by decide, ?_⟩
  rintro ⟨err, s1, h, _⟩
  have hnone : Validate echoHardware freshEmptyInstance secureFrame = none := by decide
  rw [hnone] at h
  cases h

/-- C11, amended: on an instance whose selected index has a cache entry, `Validate` returns and
leaves `first_cycle_`, the selected index, the connector info, the cache and
the token as they were; the calls it adds hold no `RegisterCurrent` and no
`UnregisterNext`. A second `Validate` for the same frame, run on the instance
the first one left, returns as well; it enqueues the same properties in the
same order as the first, with the framebuffer id the registry then answers,
so the two sequences are equal when the registry answers the same id; and
while `first_cycle_` is true each of the two calls enqueues the pipe
assignment and the power-on property once. -/
theorem C11_Validate_keeps_state (c : Collaborators) (s : HWVirtualDRM) (hw_layers : HWLayers)
    (hsel : s.current_mode_index_ < s.display_attributes_.length) :
    ∃ err1 s1 added1 err2 s2 added2 attrs,
      s.display_attributes_[s.current_mode_index_]? = some attrs ∧
      Validate c s hw_layers = some (err1, s1) ∧
      s1.first_cycle_ = s.first_cycle_ ∧
      s1.current_mode_index_ = s.current_mode_index_ ∧
      s1.connector_info_ = s.connector_info_ ∧
      s1.display_attributes_ = s.display_attributes_ ∧
      s1.token_ = s.token_ ∧
      s1.calls_ = s.calls_ ++ added1 ∧
      added1.countP isRegisterCurrent = 0 ∧
      added1.countP isUnregisterNext = 0 ∧
      Validate c s1 hw_layers = some (err2, s2) ∧
      s2.calls_ = s1.calls_ ++ added2 ∧
      added2.countP isRegisterCurrent = 0 ∧
      added2.countP isUnregisterNext = 0 ∧
      added1.filter isProperty =
        firstCycleCalls s ++ frameProperties s hw_layers (Validate.fbId c s hw_layers) attrs ∧
      added2.filter isProperty =
        firstCycleCalls s ++ frameProperties s hw_layers (Validate.fbId c s1 hw_layers) attrs ∧
      (Validate.fbId c s1 hw_layers = Validate.fbId c s hw_layers →
        added2.filter isProperty = added1.filter isProperty) ∧
      (s.first_cycle_ = true →
        added1.countP isSetCrtc = 1 ∧ added1.countP isSetPowerMode = 1 ∧
        added2.countP isSetCrtc = 1 ∧ added2.countP isSetPowerMode = 1) := by
  obtain ⟨attrs, hget⟩ : ∃ attrs, s.display_attributes_[s.current_mode_index_]? = some attrs :=
    ⟨_, List.getElem?_eq_getElem hsel⟩
  have h1 := Validate_of_cached c s hw_layers attrs hget
  have h2 := Validate_of_cached c
    { s with calls_ := s.calls_ ++ (Validate.callsBeforeDryRun c s hw_layers attrs ++
        [Call.BaseValidate hw_layers]) } hw_layers attrs hget
  have e1 : (Validate.callsBeforeDryRun c s hw_layers attrs ++
      [Call.BaseValidate hw_layers]).filter isProperty =
      firstCycleCalls s ++ frameProperties s hw_layers (Validate.fbId c s hw_layers) attrs := by
    cases hfc : s.first_cycle_ <;>
    simp [Validate.callsBeforeDryRun, firstCycleCalls, frameProperties, hfc, isProperty,
      List.filter]
  have e2 : ∀ fb, (firstCycleCalls s ++
      ([Call.MapBufferToFbId hw_layers.output_buffer,
        Call.GetFbId hw_layers.output_buffer.planes0_fd] ++
       frameProperties s hw_layers fb attrs) ++ [Call.BaseValidate hw_layers]).filter isProperty =
      firstCycleCalls s ++ frameProperties s hw_layers fb attrs := by
    intro fb
    cases hfc : s.first_cycle_ <;>
    simp [firstCycleCalls, frameProperties, hfc, isProperty, List.filter]
  refine ⟨_, _, _, _, _, _, attrs, hget, h1, rfl, rfl, rfl, rfl, rfl, rfl, ?_, ?_, h2, rfl,
    ?_, ?_, e1, ?_, ?_, ?_⟩
  · cases hfc : s.first_cycle_ <;>
    simp [Validate.callsBeforeDryRun, firstCycleCalls, frameProperties, hfc, isRegisterCurrent]
  · cases hfc : s.first_cycle_ <;>
    simp [Validate.callsBeforeDryRun, firstCycleCalls, frameProperties, hfc, isUnregisterNext]
  · cases hfc : s.first_cycle_ <;>
    simp [Validate.callsBeforeDryRun, firstCycleCalls, frameProperties, hfc, isRegisterCurrent]
  · cases hfc : s.first_cycle_ <;>
    simp [Validate.callsBeforeDryRun, firstCycleCalls, frameProperties, hfc, isUnregisterNext]
  · exact e2 _
  · intro hfb
    rw [e1, ← hfb]
    exact e2 _
  · intro hfc
    simp [Validate.callsBeforeDryRun, firstCycleCalls, frameProperties, hfc, isSetCrtc,
      isSetPowerMode]

/-- C11 on an instance in its first cycle with one cached mode and a secure
frame: `Validate` returns and `first_cycle_` is still true. -/
theorem C11_Validate_keeps_state_witness :
    freshCachedInstance.current_mode_index_ < freshCachedInstance.display_attributes_.length ∧
    ∃ err1 s1, Validate echoHardware freshCachedInstance secureFrame = some (err1, s1) ∧
      s1.first_cycle_ = freshCachedInstance.first_cycle_ ∧
      s1.current_mode_index_ = freshCachedInstance.current_mode_index_ ∧
      s1.connector_info_ = freshCachedInstance.connector_info_ :=
  ⟨by decide, by
    obtain ⟨err1, s1, _, _, _, _, _, _, h, hfc, hidx, hinfo, _⟩ :=
      C11_Validate_keeps_state echoHardware freshCachedInstance secureFrame (by decide)
    exact ⟨err1, s1, h, hfc, hidx, hinfo⟩⟩

/-! ## C12, C13: the submit and the release of the previous mapping -/

/-- C12, as stated, fails: on a fresh instance with one cached mode, under
hardware that rejects every frame, `Commit` returns `kErrorHardware` and has
called `UnregisterNext` once all the same. And on the instance a successful
`Init` leaves on an empty mode table, where the selected index has no cache
entry, `Commit` has no result at all, under hardware that accepts every frame
too, so it is not for every frame that `UnregisterNext` follows a successful
submit. -/
theorem C12_counterexample :
    (Commit failingCommitHardware freshCachedInstance secureFrame).map Prod.fst
      = some kErrorHardware ∧
    freshCachedInstance.calls_.countP isUnregisterNext = 0 ∧
    (Commit failingCommitHardware freshCachedInstance secureFrame).map
      (fun r => r.2.calls_.countP isUnregisterNext) = some 1 ∧
    (Init baseInitOk emptyInstance).1 = kErrorNone ∧
    freshEmptyInstance.display_attributes_ = [] ∧
    Commit echoHardware freshEmptyInstance secureFrame = none := by
  decide

/-- C12, amended: on an instance whose selected index has a cache entry, `Commit`
calls `UnregisterNext` exactly once, as its last call and right after the
one atomic submit, whether the submit returned `kErrorNone` or an error. -/
theorem C12_UnregisterNext_after_every_submit (c : Collaborators) (s : HWVirtualDRM)
    (hw_layers : HWLayers) (hsel : s.current_mode_index_ < s.display_attributes_.length) :
    ∃ err s1 before,
      Commit c s hw_layers = some (err, s1) ∧
      err = c.AtomicCommit (s.calls_ ++ before) hw_layers ∧
      s1.calls_ = s.calls_ ++ (before ++ [Call.AtomicCommit hw_layers, Call.UnregisterNext]) ∧
      before.countP isUnregisterNext = 0 ∧
      before.countP isAtomicCommit = 0 := by
  obtain ⟨attrs, hget⟩ : ∃ attrs, s.display_attributes_[s.current_mode_index_]? = some attrs :=
    ⟨_, List.getElem?_eq_getElem hsel⟩
  refine ⟨_, _, _, Commit_of_cached c s hw_layers attrs hget, rfl, rfl, ?_, ?_⟩
  · cases hfc : s.first_cycle_ <;>
    simp [Commit.callsBeforeSubmit, firstCycleCalls, frameProperties, hfc, isUnregisterNext]
  · cases hfc : s.first_cycle_ <;>
    simp [Commit.callsBeforeSubmit, firstCycleCalls, frameProperties, hfc, isAtomicCommit]

/-- C12, amended, under hardware that rejects every frame: the failed
`Commit` ends with the submit followed by `UnregisterNext`. -/
theorem C12_UnregisterNext_after_every_submit_witness :
    freshCachedInstance.current_mode_index_ < freshCachedInstance.display_attributes_.length ∧
    ∃ err s1 before,
      Commit failingCommitHardware freshCachedInstance secureFrame = some (err, s1) ∧
      err = failingCommitHardware.AtomicCommit (freshCachedInstance.calls_ ++ before)
        secureFrame ∧
      s1.calls_ = freshCachedInstance.calls_ ++
        (before ++ [Call.AtomicCommit secureFrame, Call.UnregisterNext]) ∧
      before.countP isUnregisterNext = 0 ∧
      before.countP isAtomicCommit = 0 :=
  ⟨by decide,
   C12_UnregisterNext_after_every_submit failingCommitHardware freshCachedInstance secureFrame
     (by decide)⟩

/-- C13, as stated, fails: on the instance a successful `Init` leaves on an
empty mode table the selected index 0 has no cache entry; `Commit` and
`Validate` read the cache past its end before they reach the submit or the
dry run and have no result, so neither returns the answer of such a call. -/
theorem C13_counterexample :
    (Init baseInitOk emptyInstance).1 = kErrorNone ∧
    freshEmptyInstance.current_mode_index_ = 0 ∧
    freshEmptyInstance.display_attributes_ = [] ∧
    Commit echoHardware freshEmptyInstance secureFrame = none ∧
    Validate echoHardware freshEmptyInstance secureFrame = none ∧
    (¬ ∃ s1 before,
      Commit echoHardware freshEmptyInstance secureFrame =
        some (echoHardware.AtomicCommit (freshEmptyInstance.calls_ ++ before) secureFrame,
          s1)) ∧
    ¬ ∃ s1 before,
      Validate echoHardware freshEmptyInstance secureFrame =
        some (echoHardware.Validate (freshEmptyInstance.calls_ ++ before) secureFrame, s1) := by
  have hC : Commit echoHardware freshEmptyInstance secureFrame = none := by decide
  have hV : Validate echoHardware freshEmptyInstance secureFrame = none := by decide
  refine ⟨by decide, by decide, by decide, hC, hV, ?_, ?_⟩
  · rintro ⟨s1, before, h⟩
    rw [hC] at h
    cases h
  · rintro ⟨s1, before, h⟩
    rw [hV] at h
    cases h

/-- C13, amended: on an instance whose selected index has a cache entry, `Commit` calls the
atomic submit of the base class exactly once and returns the value that call
answered, and `Validate` calls the dry run of the base class exactly once and
returns the value that call answered. -/
theorem C13_result_is_the_submit_result (c : Collaborators) (s : HWVirtualDRM)
    (hw_layers : HWLayers) (hsel : s.current_mode_index_ < s.display_attributes_.length) :
    (∃ s1 before after,
      Commit c s hw_layers = some (c.AtomicCommit (s.calls_ ++ before) hw_layers, s1) ∧
      s1.calls_ = s.calls_ ++ (before ++ Call.AtomicCommit hw_layers :: after) ∧
      (before ++ Call.AtomicCommit hw_layers :: after).countP isAtomicCommit = 1) ∧
    (∃ s1 before after,
      Validate c s hw_layers = some (c.Validate (s.calls_ ++ before) hw_layers, s1) ∧
      s1.calls_ = s.calls_ ++ (before ++ Call.BaseValidate hw_layers :: after) ∧
      (before ++ Call.BaseValidate hw_layers :: after).countP isBaseValidate = 1) := by
  obtain ⟨attrs, hget⟩ : ∃ attrs, s.display_attributes_[s.current_mode_index_]? = some attrs :=
    ⟨_, List.getElem?_eq_getElem hsel⟩
  constructor
  · refine ⟨_, _, [Call.UnregisterNext], Commit_of_cached c s hw_layers attrs hget, rfl, ?_⟩
    cases hfc : s.first_cycle_ <;>
    simp [Commit.callsBeforeSubmit, firstCycleCalls, frameProperties, hfc, isAtomicCommit]
  · refine ⟨_, _, [], Validate_of_cached c s hw_layers attrs hget, rfl, ?_⟩
    cases hfc : s.first_cycle_ <;>
    simp [Validate.callsBeforeDryRun, firstCycleCalls, frameProperties, hfc, isBaseValidate]

/-- C13 under hardware that rejects every frame: `Commit` returns the
`kErrorHardware` the submit answered. -/
theorem C13_result_is_the_submit_result_witness :
    freshCachedInstance.current_mode_index_ < freshCachedInstance.display_attributes_.length ∧
    (Commit failingCommitHardware freshCachedInstance secureFrame).map Prod.fst
      = some kErrorHardware ∧
    ∃ s1 before after,
      Commit failingCommitHardware freshCachedInstance secureFrame =
        some (failingCommitHardware.AtomicCommit (freshCachedInstance.calls_ ++ before)
          secureFrame, s1) ∧
      s1.calls_ = freshCachedInstance.calls_ ++
        (before ++ Call.AtomicCommit secureFrame :: after) ∧
      (before ++ Call.AtomicCommit secureFrame :: after).countP isAtomicCommit = 1 :=
  ⟨by decide, by decide,
   (C13_result_is_the_submit_result failingCommitHardware freshCachedInstance secureFrame
     (by decide)).1⟩

/-! ## C15, C16: the synthesized mode and the mode-table update -/

/-- The calls `SetWbConfigs` adds: the update, and the reload when the update
was accepted. -/
theorem SetWbConfigs_calls (c : Collaborators) (s : HWVirtualDRM) (da : HWDisplayAttributes) :
    (SetWbConfigs c s da).2.calls_ =
      s.calls_ ++ (Call.drmIoctl_SDE_WB_CONFIG (wbConfig (SetWbConfigs.pushed s da)) ::
        (if SetWbConfigs.ret c s da ≠ 0 then [] else [Call.GetConnectorInfo s.token_.conn_id])) := by
  have h := (SetWbConfigs.afterReload_frame c s da).2.2.2.2.1
  rw [SetWbConfigs_eq]
  split_ifs
  · simp [SetWbConfigs.afterUpdate, HWVirtualDRM.call, SetWbConfigs.pushed]
  · simpa using h
  · simpa using h

/-- C15: the mode `SetWbConfigs` synthesizes has sync start, sync end and
total equal to the active size in both directions and, for a 32-bit frame
rate, a refresh rate equal to the requested rate. `SetWbConfigs` issues one
mode-table update; its payload carries the connector id of the token, the
CONNECTED flag, a mode count one above the previous count, and the previous
mode list with the synthesized mode appended as last element. -/
theorem C15_synthesized_mode_and_update (c : Collaborators) (s : HWVirtualDRM)
    (da : HWDisplayAttributes) (hfps : da.fps < 2 ^ 32) :
    ((synthesizeMode da).hsync_start = (synthesizeMode da).hdisplay ∧
      (synthesizeMode da).hsync_end = (synthesizeMode da).hdisplay ∧
      (synthesizeMode da).htotal = (synthesizeMode da).hdisplay ∧
      (synthesizeMode da).vsync_start = (synthesizeMode da).vdisplay ∧
      (synthesizeMode da).vsync_end = (synthesizeMode da).vdisplay ∧
      (synthesizeMode da).vtotal = (synthesizeMode da).vdisplay ∧
      (synthesizeMode da).hdisplay = da.x_pixels % 2 ^ 16 ∧
      (synthesizeMode da).vdisplay = da.y_pixels % 2 ^ 16 ∧
      (synthesizeMode da).vrefresh = da.fps) ∧
    (∃ after,
      (SetWbConfigs c s da).2.calls_ =
        s.calls_ ++ Call.drmIoctl_SDE_WB_CONFIG
          { connector_id := s.token_.conn_id,
            flags := SDE_DRM_WB_CFG_FLAGS_CONNECTED,
            count_modes := s.connector_info_.modes.length + 1,
            modes := s.connector_info_.modes ++ [synthesizeMode da] } :: after ∧
      after.countP isModeTableUpdate = 0) ∧
    (s.connector_info_.modes ++ [synthesizeMode da]).getLast? = some (synthesizeMode da) ∧
    (s.connector_info_.modes ++ [synthesizeMode da]).take s.connector_info_.modes.length
      = s.connector_info_.modes := by
  refine ⟨?_, ?_, by simp, by simp⟩
  · simpa [synthesizeMode, UINT16, UINT32] using hfps
  · refine ⟨if SetWbConfigs.ret c s da ≠ 0 then []
        else [Call.GetConnectorInfo s.token_.conn_id], ?_, ?_⟩
    · rw [SetWbConfigs_calls]
      simp [wbConfig, SetWbConfigs.pushed]
    · split_ifs <;> simp [isModeTableUpdate]

/-- C15 for 1920x1080 at 30 fps on an instance with two modes. -/
theorem C15_synthesized_mode_and_update_witness :
    fullHD30.fps < 2 ^ 32 ∧
    (synthesizeMode fullHD30).htotal = 1920 ∧ (synthesizeMode fullHD30).vtotal = 1080 ∧
    ∃ after,
      (SetWbConfigs echoHardware secondSelectedInstance fullHD30).2.calls_ =
        secondSelectedInstance.calls_ ++ Call.drmIoctl_SDE_WB_CONFIG
          { connector_id := secondSelectedInstance.token_.conn_id,
            flags := SDE_DRM_WB_CFG_FLAGS_CONNECTED,
            count_modes := secondSelectedInstance.connector_info_.modes.length + 1,
            modes := secondSelectedInstance.connector_info_.modes ++
              [synthesizeMode fullHD30] } :: after ∧
      after.countP isModeTableUpdate = 0 :=
  ⟨by decide, by decide, by decide,
   (C15_synthesized_mode_and_update echoHardware secondSelectedInstance fullHD30
     (by decide)).2.1⟩

/-- The clock of the synthesized mode is the exact quotient whenever the
product of its totals and refresh rate is below `2 ^ 32`. -/
theorem synthesizeMode_clock_of_lt (da : HWDisplayAttributes)
    (h : (synthesizeMode da).htotal * (synthesizeMode da).vtotal *
      (synthesizeMode da).vrefresh < 2 ^ 32) :
    (synthesizeMode da).clock =
      (synthesizeMode da).htotal * (synthesizeMode da).vtotal *
        (synthesizeMode da).vrefresh / 1000 := by
  simp only [synthesizeMode] at h ⊢
  rw [UINT32, Nat.mod_eq_of_lt h]

/-- C16, the code at a large request: for 7680x4320 at 144 fps the product of
the synthesized mode's totals and refresh rate is 4777574400, which is not
below `2 ^ 32`; the clock stored is 482607, while the product divided by 1000
is 4777574. For 1920x1080 at 30 fps the clock is 62208. -/
theorem C16_clock_wraps_at_32_bits :
    (synthesizeMode uhd8k144).htotal = 7680 ∧
    (synthesizeMode uhd8k144).vtotal = 4320 ∧
    (synthesizeMode uhd8k144).vrefresh = 144 ∧
    (synthesizeMode uhd8k144).htotal * (synthesizeMode uhd8k144).vtotal *
      (synthesizeMode uhd8k144).vrefresh / 1000 = 4777574 ∧
    (synthesizeMode uhd8k144).clock = 482607 ∧
    (synthesizeMode uhd8k144).clock ≠
      (synthesizeMode uhd8k144).htotal * (synthesizeMode uhd8k144).vtotal *
        (synthesizeMode uhd8k144).vrefresh / 1000 ∧
    (synthesizeMode fullHD30).clock = 62208 ∧
    (synthesizeMode fullHD30).htotal * (synthesizeMode fullHD30).vtotal *
      (synthesizeMode fullHD30).vrefresh / 1000 = 62208 := by
  decide

/-! ## C17: Validate and Commit enqueue the same properties -/

/-- The loop on lines 67-69, for modes whose width is a 16-bit value: the
running maximum ends as the larger of its start value and the greatest width
in the list. -/
theorem foldl_max_hdisplay (modes : List drmModeModeInfo)
    (hwf : ∀ m ∈ modes, m.hdisplay < 2 ^ 16) :
    ∀ a : Nat, modes.foldl (fun acc m => max acc (UINT32 m.hdisplay)) a
      = max a ((modes.map (fun m => m.hdisplay)).foldr max 0) := by
  induction modes with
  | nil => intro a; simp
  | cons m rest ih =>
    intro a
    have hm : m.hdisplay < 2 ^ 16 := hwf m (List.mem_cons_self _ _)
    have hrest : ∀ x ∈ rest, x.hdisplay < 2 ^ 16 := fun x hx => hwf x (List.mem_cons_of_mem _ hx)
    have hu : UINT32 m.hdisplay = m.hdisplay := by
      unfold UINT32
      omega
    simp only [List.foldl_cons, List.map_cons, List.foldr_cons, ih hrest, hu]
    omega

/-- The greatest element of a list, 0 for an empty list, exceeds a bound
exactly when some element does. -/
theorem foldr_max_gt_iff (l : List Nat) (w : Nat) :
    l.foldr max 0 > w ↔ ∃ x ∈ l, x > w := by
  induction l with
  | nil => simp
  | cons a rest ih =>
    simp only [List.foldr_cons, List.mem_cons, exists_eq_or_imp]
    rw [← ih]
    omega

/-- C18: with mode widths that are 16-bit values, `Init` returns the error of
a failed base `Init` and leaves the instance as the base `Init` left it,
topology and cache included. After a successful base `Init` it returns
`kErrorNone` and keeps the mode list; a topology other than UNKNOWN is kept;
an UNKNOWN topology becomes DUAL_LM_MERGE when the greatest width of the mode
list (0 for an empty list) is above `max_mixer_width`, which is when some mode
is wider than `max_mixer_width`, and SINGLE_LM otherwise. -/
theorem C18_Init_topology (baseInit : HWVirtualDRM → DisplayError × HWVirtualDRM)
    (s : HWVirtualDRM)
    (hwf : ∀ m ∈ (baseInit s).2.connector_info_.modes, m.hdisplay < 2 ^ 16) :
    ((baseInit s).1 ≠ kErrorNone →
      Init baseInit s = baseInit s ∧
      (Init baseInit s).1 = (baseInit s).1 ∧
      (Init baseInit s).2.connector_info_.topology = (baseInit s).2.connector_info_.topology ∧
      (Init baseInit s).2.display_attributes_ = (baseInit s).2.display_attributes_) ∧
    ((baseInit s).1 = kErrorNone →
      (Init baseInit s).1 = kErrorNone ∧
      (Init baseInit s).2.connector_info_.modes = (baseInit s).2.connector_info_.modes ∧
      ((baseInit s).2.connector_info_.topology ≠ DRMTopology.UNKNOWN →
        (Init baseInit s).2.connector_info_.topology
          = (baseInit s).2.connector_info_.topology) ∧
      ((baseInit s).2.connector_info_.topology = DRMTopology.UNKNOWN →
        (Init baseInit s).2.connector_info_.topology =
          (if ((baseInit s).2.connector_info_.modes.map (fun m => m.hdisplay)).foldr max 0
              > (baseInit s).2.max_mixer_width
           then DRMTopology.DUAL_LM_MERGE else DRMTopology.SINGLE_LM) ∧
        ((Init baseInit s).2.connector_info_.topology = DRMTopology.DUAL_LM_MERGE ↔
          ∃ m ∈ (baseInit s).2.connector_info_.modes,
            m.hdisplay > (baseInit s).2.max_mixer_width))) := by
  constructor
  · intro herr
    simp [Init, herr]
  · intro hok
    have hmax := foldl_max_hdisplay (baseInit s).2.connector_info_.modes hwf 0
    rw [Nat.zero_max] at hmax
    refine ⟨by simp [Init, hok], ?_, ?_, ?_⟩
    · simp only [Init, hok, ne_eq, not_true_eq_false, if_false]
      rw [(InitializeConfigs_frame _).1]
      split_ifs <;> rfl
    · intro hknown
      simp only [Init, hok, ne_eq, not_true_eq_false, if_false]
      rw [(InitializeConfigs_frame _).1]
      simp [hknown]
    · intro hunknown
      have htop : (Init baseInit s).2.connector_info_.topology =
          (if ((baseInit s).2.connector_info_.modes.map (fun m => m.hdisplay)).foldr max 0
              > (baseInit s).2.max_mixer_width
           then DRMTopology.DUAL_LM_MERGE else DRMTopology.SINGLE_LM) := by
        simp only [Init, hok, ne_eq, not_true_eq_false, if_false]
        rw [(InitializeConfigs_frame _).1]
        simp only [hunknown, if_true, hmax]
      refine ⟨htop, ?_⟩
      rw [htop]
      have hiff := foldr_max_gt_iff
        ((baseInit s).2.connector_info_.modes.map (fun m => m.hdisplay))
        (baseInit s).2.max_mixer_width
      simp only [List.mem_map, exists_exists_and_eq_and] at hiff
      rw [← hiff]
      split_ifs with h
      · simp [h]
      · simp [h]

/-- C18 on an instance the base class left with modes 1920 and 3840 wide, no
topology and a mixer width of 2560: `Init` selects DUAL_LM_MERGE. -/
theorem C18_Init_topology_witness :
    (∀ m ∈ (baseInitOk loadedInstance).2.connector_info_.modes, m.hdisplay < 2 ^ 16) ∧
    (baseInitOk loadedInstance).1 = kErrorNone ∧
    (baseInitOk loadedInstance).2.connector_info_.topology = DRMTopology.UNKNOWN ∧
    (Init baseInitOk loadedInstance).2.connector_info_.topology = DRMTopology.DUAL_LM_MERGE ∧
    (Init baseInitOk loadedInstance).2.connector_info_.topology =
      (if ((baseInitOk loadedInstance).2.connector_info_.modes.map
            (fun m => m.hdisplay)).foldr max 0 > (baseInitOk loadedInstance).2.max_mixer_width
       then DRMTopology.DUAL_LM_MERGE else DRMTopology.SINGLE_LM) :=
  ⟨by decide, by decide, by decide, by decide,
   ((C18_Init_topology baseInitOk loadedInstance (by decide)).2 (by decide)).2.2.2
     (by decide) |>.1⟩

/-! ## The cache and the mode list -/

/-- The cache after `PopulateDisplayAttributes` for an index inside the mode
list. -/
theorem PopulateDisplayAttributes_cache (t : HWVirtualDRM) (k : Nat) (mk : drmModeModeInfo)
    (h : t.connector_info_.modes[k]? = some mk) :
    (PopulateDisplayAttributes t k).display_attributes_
      = t.display_attributes_.set k (cachedAttributes mk) := by
  simp [PopulateDisplayAttributes, h, cachedAttributes]

/-- Populating the entries `0 .. k-1` of a cache as long as the mode list
writes the attributes of mode `i` at every index `i < k`. -/
theorem foldl_range_PopulateDisplayAttributes (s : HWVirtualDRM)
    (hlen : s.display_attributes_.length = s.connector_info_.modes.length) :
    ∀ k, k ≤ s.connector_info_.modes.length → ∀ i m, i < k →
      s.connector_info_.modes[i]? = some m →
      ((List.range k).foldl PopulateDisplayAttributes s).display_attributes_[i]?
        = some (cachedAttributes m) := by
  intro k
  induction k with
  | zero => intro _ i m hi; omega
  | succ k ih =>
    intro hk i m hi hget
    rw [List.range_succ, List.foldl_append]
    simp only [List.foldl_cons, List.foldl_nil]
    obtain ⟨hinfo, _, _, _, _, _, hlen2⟩ :=
      foldl_PopulateDisplayAttributes_frame (List.range k) s
    have ih2 := ih (by omega)
    generalize (List.range k).foldl PopulateDisplayAttributes s = t at hinfo hlen2 ih2
    have hkm : ∃ mk, s.connector_info_.modes[k]? = some mk :=
      ⟨_, List.getElem?_eq_getElem (by omega)⟩
    obtain ⟨mk, hmk⟩ := hkm
    rw [PopulateDisplayAttributes_cache t k mk (by rw [hinfo]; exact hmk), List.getElem?_set]
    by_cases hki : k = i
    · subst hki
      have : k < t.display_attributes_.length := by
        rw [hlen2, hlen]; omega
      rw [hmk] at hget
      cases hget
      simp [this]
    · rw [if_neg hki]
      exact ih2 i m (by omega) hget

/-- After `InitializeConfigs` every cache entry holds the attributes of the
mode at its index. -/
theorem InitializeConfigs_synced (s : HWVirtualDRM) : CacheSynced (InitializeConfigs s) := by
  intro i attrs hget
  obtain ⟨hinfo, _, _, _, _, _, hlen⟩ := InitializeConfigs_frame s
  have hi : i < (InitializeConfigs s).display_attributes_.length :=
    (List.getElem?_eq_some_iff.1 hget).1
  rw [hlen] at hi
  have hm : s.connector_info_.modes[i]? = some (s.connector_info_.modes[i]) :=
    List.getElem?_eq_getElem hi
  have hres : (resize s.display_attributes_ s.connector_info_.modes.length).length
      = s.connector_info_.modes.length := by
    simp [resize]
    omega
  have h := foldl_range_PopulateDisplayAttributes
    { s with display_attributes_ := resize s.display_attributes_ s.connector_info_.modes.length }
    hres s.connector_info_.modes.length (Nat.le_refl _) i _ hi hm
  have h2 : (InitializeConfigs s).display_attributes_[i]?
      = some (cachedAttributes s.connector_info_.modes[i]) := h
  rw [h2] at hget
  cases hget
  exact ⟨_, by rw [hinfo]; exact hm, rfl, rfl⟩

/-- `SetDisplayAttributes` keeps the cache in step with the mode list. -/
theorem SetDisplayAttributes_synced (c : Collaborators) (s : HWVirtualDRM)
    (da : HWDisplayAttributes) (hs : CacheSynced s) :
    CacheSynced (SetDisplayAttributes c s da).2 := by
  have hreload : CacheSynced (SetWbConfigs.afterReload c s da) := InitializeConfigs_synced _
  rw [SetDisplayAttributes_eq]
  split_ifs
  · exact hs
  · intro i attrs hget
    obtain ⟨m, hm, hx, hy⟩ := hs i attrs hget
    refine ⟨m, ?_, hx, hy⟩
    have hi : i < s.connector_info_.modes.length := (List.getElem?_eq_some_iff.1 hm).1
    simp only [SetWbConfigs.afterUpdate, HWVirtualDRM.call, SetWbConfigs.pushed]
    rw [List.getElem?_append_left hi]
    exact hm
  · exact hreload
  · exact hreload
  · exact hs

/-- The property `CacheSynced` depends only on the cache and the connector
info. -/
theorem CacheSynced_congr (s t : HWVirtualDRM)
    (hc : t.display_attributes_ = s.display_attributes_)
    (hi : t.connector_info_ = s.connector_info_) (hs : CacheSynced s) : CacheSynced t := by
  intro i attrs hget
  rw [hc] at hget
  rw [hi]
  exact hs i attrs hget

/-- A successful `Init` leaves the cache in step with the mode list. -/
theorem Init_synced (baseInit : HWVirtualDRM → DisplayError × HWVirtualDRM) (s : HWVirtualDRM)
    (hok : (Init baseInit s).1 = kErrorNone) : CacheSynced (Init baseInit s).2 := by
  by_cases hb : (baseInit s).1 = kErrorNone
  · simp only [Init, hb, ne_eq, not_true_eq_false, if_false]
    exact InitializeConfigs_synced _
  · simp [Init, hb] at hok

/-- Every operation keeps the cache in step with the mode list. -/
theorem step_synced (c : Collaborators) (s t : HWVirtualDRM) (op : Op)
    (hs : CacheSynced s) (hstep : step c s op = some t) : CacheSynced t := by
  cases op with
  | Commit hw_layers =>
    cases hget : s.display_attributes_[s.current_mode_index_]? with
    | none => simp [step, Commit_of_not_cached c s hw_layers hget] at hstep
    | some attrs =>
      simp [step, Commit_of_cached c s hw_layers attrs hget] at hstep
      rw [← hstep]
      exact CacheSynced_congr s _ rfl rfl hs
  | Validate hw_layers =>
    cases hget : s.display_attributes_[s.current_mode_index_]? with
    | none => simp [step, Validate_of_not_cached c s hw_layers hget] at hstep
    | some attrs =>
      simp [step, Validate_of_cached c s hw_layers attrs hget] at hstep
      rw [← hstep]
      exact CacheSynced_congr s _ rfl rfl hs
  | SetDisplayAttributes da =>
    simp [step] at hstep
    rw [← hstep]
    exact SetDisplayAttributes_synced c s da hs
  | PowerOn =>
    simp only [step, PowerOn, Option.some.injEq] at hstep
    rw [← hstep]
    split_ifs
    · exact hs
    · exact CacheSynced_congr s _ rfl rfl hs

/-- Every sequence of operations keeps the cache in step with the mode
list. -/
theorem runOps_synced (c : Collaborators) (ops : List Op) :
    ∀ s t : HWVirtualDRM, CacheSynced s → runOps c s ops = some t → CacheSynced t := by
  induction ops with
  | nil =>
    intro s t hs hrun
    simp [runOps] at hrun
    rw [← hrun]
    exact hs
  | cons op rest ih =>
    intro s t hs hrun
    cases hstep : step c s op with
    | none => simp [runOps, hstep] at hrun
    | some s1 =>
      simp [runOps, hstep] at hrun
      exact ih s1 t (step_synced c s s1 op hs hstep) hrun

/-- With the cache in step and the selected index cached, `Commit` and
`Validate` return and each enqueues one destination rectangle, of the active
size of the selected mode. -/
theorem rect_of_synced (c : Collaborators) (s : HWVirtualDRM) (hw_layers : HWLayers)
    (hs : CacheSynced s) (hsel : s.current_mode_index_ < s.display_attributes_.length) :
    ∃ m errC sC addedC errV sV addedV,
      s.connector_info_.modes[s.current_mode_index_]? = some m ∧
      Commit c s hw_layers = some (errC, sC) ∧
      sC.calls_ = s.calls_ ++ addedC ∧
      addedC.filter isOutputRect =
        [Call.CONNECTOR_SET_OUTPUT_RECT s.token_.conn_id
          { left := 0, top := 0, right := m.hdisplay, bottom := m.vdisplay }] ∧
      Validate c s hw_layers = some (errV, sV) ∧
      sV.calls_ = s.calls_ ++ addedV ∧
      addedV.filter isOutputRect =
        [Call.CONNECTOR_SET_OUTPUT_RECT s.token_.conn_id
          { left := 0, top := 0, right := m.hdisplay, bottom := m.vdisplay }] := by
  obtain ⟨attrs, hget⟩ : ∃ attrs, s.display_attributes_[s.current_mode_index_]? = some attrs :=
    ⟨_, List.getElem?_eq_getElem hsel⟩
  obtain ⟨m, hm, hx, hy⟩ := hs _ attrs hget
  refine ⟨m, _, _, _, _, _, _, hm, Commit_of_cached c s hw_layers attrs hget, rfl, ?_,
    Validate_of_cached c s hw_layers attrs hget, rfl, ?_⟩
  · cases hfc : s.first_cycle_ <;>
    simp [Commit.callsBeforeSubmit, firstCycleCalls, frameProperties, hfc, isOutputRect,
      List.filter, hx, hy]
  · cases hfc : s.first_cycle_ <;>
    simp [Validate.callsBeforeDryRun, firstCycleCalls, frameProperties, hfc, isOutputRect,
      List.filter, hx, hy]

/-! ## C14: the destination rectangle -/

/-- C14, as stated, fails: after a successful `Init` on the modes 1920x1080
and 3840x2160, a request for 1920x1080 at 30 fps selects index 0 and `Commit`
enqueues the rectangle 1920x1080. A request for 1280x720 at 60 fps is
accepted by the hardware, whose reload lacks the new mode and lists the
others in reverse order; the request fails with `kErrorNotSupported`, and
`Commit` now enqueues the rectangle 3840x2160, not the size of the mode
selected before. -/
theorem C14_counterexample :
    (Init baseInitOk loadedInstance).1 = kErrorNone ∧
    (SetDisplayAttributes pruningHardware (Init baseInitOk loadedInstance).2 fullHD30).1
      = kErrorNone ∧
    selectedFullHDInstance.connector_info_.modes[selectedFullHDInstance.current_mode_index_]?
      = some mode1080p30 ∧
    (Commit pruningHardware selectedFullHDInstance secureFrame).map
      (fun r => r.2.calls_.filter isOutputRect) = some
        [Call.CONNECTOR_SET_OUTPUT_RECT 27
          { left := 0, top := 0, right := 1920, bottom := 1080 }] ∧
    (SetDisplayAttributes pruningHardware selectedFullHDInstance hd60).1
      = kErrorNotSupported ∧
    (Commit pruningHardware
      (SetDisplayAttributes pruningHardware selectedFullHDInstance hd60).2 secureFrame).map
      (fun r => r.2.calls_.filter isOutputRect) = some
        [Call.CONNECTOR_SET_OUTPUT_RECT 27
          { left := 0, top := 0, right := 3840, bottom := 2160 }] := by
  decide

/-- C14, amended: in every state reached from a successful `Init` by
`Commit`, `Validate`, `SetDisplayAttributes` and `PowerOn` calls in which the
selected index has a cache entry, `Commit` and `Validate` return and each
enqueues one destination rectangle, with left and top 0 and right and bottom
the active width and height of the mode at the selected index of the current
mode list, whatever was requested last. After a `SetDisplayAttributes` that
failed with `kErrorParameters` or `kErrorHardware` the selected index and the
mode at it are the ones from before the call, so the rectangle has the size
of the mode selected before. -/
theorem C14_destination_rectangle :
    (∀ (baseInit : HWVirtualDRM → DisplayError × HWVirtualDRM) (c : Collaborators)
        (s0 s : HWVirtualDRM) (ops : List Op) (hw_layers : HWLayers),
      (Init baseInit s0).1 = kErrorNone →
      runOps c (Init baseInit s0).2 ops = some s →
      s.current_mode_index_ < s.display_attributes_.length →
      ∃ m errC sC addedC errV sV addedV,
        s.connector_info_.modes[s.current_mode_index_]? = some m ∧
        Commit c s hw_layers = some (errC, sC) ∧
        sC.calls_ = s.calls_ ++ addedC ∧
        addedC.filter isOutputRect =
          [Call.CONNECTOR_SET_OUTPUT_RECT s.token_.conn_id
            { left := 0, top := 0, right := m.hdisplay, bottom := m.vdisplay }] ∧
        Validate c s hw_layers = some (errV, sV) ∧
        sV.calls_ = s.calls_ ++ addedV ∧
        addedV.filter isOutputRect =
          [Call.CONNECTOR_SET_OUTPUT_RECT s.token_.conn_id
            { left := 0, top := 0, right := m.hdisplay, bottom := m.vdisplay }]) ∧
    (∀ (baseInit : HWVirtualDRM → DisplayError × HWVirtualDRM) (c : Collaborators)
        (s0 s : HWVirtualDRM) (ops : List Op) (da : HWDisplayAttributes)
        (hw_layers : HWLayers),
      (Init baseInit s0).1 = kErrorNone →
      runOps c (Init baseInit s0).2 ops = some s →
      s.current_mode_index_ < s.display_attributes_.length →
      ((SetDisplayAttributes c s da).1 = kErrorParameters ∨
        (SetDisplayAttributes c s da).1 = kErrorHardware) →
      ∃ m errC sC addedC errV sV addedV,
        s.connector_info_.modes[s.current_mode_index_]? = some m ∧
        (SetDisplayAttributes c s da).2.current_mode_index_ = s.current_mode_index_ ∧
        (SetDisplayAttributes c s da).2.connector_info_.modes[s.current_mode_index_]?
          = some m ∧
        Commit c (SetDisplayAttributes c s da).2 hw_layers = some (errC, sC) ∧
        sC.calls_ = (SetDisplayAttributes c s da).2.calls_ ++ addedC ∧
        addedC.filter isOutputRect =
          [Call.CONNECTOR_SET_OUTPUT_RECT s.token_.conn_id
            { left := 0, top := 0, right := m.hdisplay, bottom := m.vdisplay }] ∧
        Validate c (SetDisplayAttributes c s da).2 hw_layers = some (errV, sV) ∧
        sV.calls_ = (SetDisplayAttributes c s da).2.calls_ ++ addedV ∧
        addedV.filter isOutputRect =
          [Call.CONNECTOR_SET_OUTPUT_RECT s.token_.conn_id
            { left := 0, top := 0, right := m.hdisplay, bottom := m.vdisplay }]) := by
  constructor
  · intro baseInit c s0 s ops hw_layers hok hrun hsel
    exact rect_of_synced c s hw_layers
      (runOps_synced c ops _ s (Init_synced baseInit s0 hok) hrun) hsel
  · intro baseInit c s0 s ops da hw_layers hok hrun hsel herr
    have hs : CacheSynced s := runOps_synced c ops _ s (Init_synced baseInit s0 hok) hrun
    have hs2 := SetDisplayAttributes_synced c s da hs
    obtain ⟨attrs, hget⟩ :
        ∃ attrs, s.display_attributes_[s.current_mode_index_]? = some attrs :=
      ⟨_, List.getElem?_eq_getElem hsel⟩
    obtain ⟨m, hm, _, _⟩ := hs _ attrs hget
    have hlt : s.current_mode_index_ < s.connector_info_.modes.length :=
      (List.getElem?_eq_some_iff.1 hm).1
    have hne : (SetDisplayAttributes c s da).1 ≠ kErrorNone := by
      rcases herr with h | h <;> rw [h] <;> decide
    have hidx := SetDisplayAttributes_error_index c s da hne
    have hkeep : (SetDisplayAttributes c s da).2.display_attributes_ = s.display_attributes_ ∧
        (SetDisplayAttributes c s da).2.token_ = s.token_ ∧
        (SetDisplayAttributes c s da).2.connector_info_.modes[s.current_mode_index_]?
          = some m := by
      rw [SetDisplayAttributes_eq] at herr ⊢
      split_ifs at herr ⊢
      · exact ⟨rfl, rfl, hm⟩
      · refine ⟨rfl, rfl, ?_⟩
        simp only [SetWbConfigs.afterUpdate, HWVirtualDRM.call, SetWbConfigs.pushed]
        rw [List.getElem?_append_left hlt]
        exact hm
      · rcases herr with h | h <;> cases h
      · rcases herr with h | h <;> simp [SetDisplayAttributes.finish] at h
      · rcases herr with h | h <;> simp [SetDisplayAttributes.finish] at h
    obtain ⟨hcache, htok, hmode⟩ := hkeep
    have hsel2 : (SetDisplayAttributes c s da).2.current_mode_index_ <
        (SetDisplayAttributes c s da).2.display_attributes_.length := by
      rw [hidx, hcache]
      exact hsel
    obtain ⟨m2, errC, sC, addedC, errV, sV, addedV, hm2, hC, hCc, hCr, hV, hVc, hVr⟩ :=
      rect_of_synced c (SetDisplayAttributes c s da).2 hw_layers hs2 hsel2
    rw [hidx, hmode] at hm2
    cases hm2
    rw [htok] at hCr hVr
    exact ⟨m, errC, sC, addedC, errV, sV, addedV, hm, hidx, hmode, hC, hCc, hCr, hV, hVc, hVr⟩

/-- C14, amended, after a successful `Init` on two modes, a request that
selects 1920x1080, a frame, and a request for 1280x720 that the hardware
rejects: `Commit` and `Validate` enqueue the rectangle of the mode at the
selected index. -/
theorem C14_destination_rectangle_witness :
    (Init baseInitOk loadedInstance).1 = kErrorNone ∧
    runOps rejectingHardware (Init baseInitOk loadedInstance).2 selectCommitRequest
      = some afterRejectedRequest ∧
    afterRejectedRequest.current_mode_index_ < afterRejectedRequest.display_attributes_.length ∧
    afterRejectedRequest.connector_info_.modes[afterRejectedRequest.current_mode_index_]?
      = some mode1080p30 ∧
    ∃ m errC sC addedC errV sV addedV,
      afterRejectedRequest.connector_info_.modes[afterRejectedRequest.current_mode_index_]?
        = some m ∧
      Commit rejectingHardware afterRejectedRequest secureFrame = some (errC, sC) ∧
      sC.calls_ = afterRejectedRequest.calls_ ++ addedC ∧
      addedC.filter isOutputRect =
        [Call.CONNECTOR_SET_OUTPUT_RECT afterRejectedRequest.token_.conn_id
          { left := 0, top := 0, right := m.hdisplay, bottom := m.vdisplay }] ∧
      Validate rejectingHardware afterRejectedRequest secureFrame = some (errV, sV) ∧
      sV.calls_ = afterRejectedRequest.calls_ ++ addedV ∧
      addedV.filter isOutputRect =
        [Call.CONNECTOR_SET_OUTPUT_RECT afterRejectedRequest.token_.conn_id
          { left := 0, top := 0, right := m.hdisplay, bottom := m.vdisplay }] :=
  ⟨by decide, by decide, by decide, by decide,
   C14_destination_rectangle.1 baseInitOk rejectingHardware loadedInstance
     afterRejectedRequest selectCommitRequest secureFrame (by decide) (by decide) (by decide)⟩

/-! ## C19: bounds of the cache lookup -/

/-- C19, the code after a rejected update: `Init` succeeds on an empty mode
table; the first request for 1920x1080 at 30 fps fails with `kErrorHardware`
and leaves the synthesized mode in the list without a cache entry; the same
request again succeeds by match and selects index 0. The mode list then has
one entry and the cache none, the selected index is not below the cache
length, and the lookup of `Commit` and `Validate` is out of bounds. -/
theorem C19_selected_index_outside_cache :
    (Init baseInitOk emptyInstance).1 = kErrorNone ∧
    (SetDisplayAttributes rejectingHardware (Init baseInitOk emptyInstance).2 fullHD30).1
      = kErrorHardware ∧
    (SetDisplayAttributes rejectingHardware
      (SetDisplayAttributes rejectingHardware (Init baseInitOk emptyInstance).2 fullHD30).2
      fullHD30).1 = kErrorNone ∧
    afterRepeatedRequest.connector_info_.modes.length = 1 ∧
    afterRepeatedRequest.display_attributes_.length = 0 ∧
    afterRepeatedRequest.current_mode_index_ = 0 ∧
    ¬ (afterRepeatedRequest.current_mode_index_
        < afterRepeatedRequest.display_attributes_.length) ∧
    ConfigureWbConnectorDestRect afterRepeatedRequest = none ∧
    Commit rejectingHardware afterRepeatedRequest secureFrame = none ∧
    Validate rejectingHardware afterRepeatedRequest secureFrame = none := by
  decide

/-! ## C20: registration under hardware that reloads what it was given -/

/-- C20, as stated, fails: under hardware that accepts every update and
reloads the list it was given, the request 67456x1080 at 30 fps, of non-zero
32-bit size, returns `kErrorNotSupported`; the mode synthesized for it is
1920 wide. -/
theorem C20_counterexample :
    wide30.x_pixels ≠ 0 ∧ wide30.y_pixels ≠ 0 ∧
    wide30.x_pixels < 2 ^ 32 ∧ wide30.y_pixels < 2 ^ 32 ∧
    (synthesizeMode wide30).hdisplay = 1920 ∧
    (SetDisplayAttributes echoHardware emptyInstance wide30).1 = kErrorNotSupported ∧
    (SetDisplayAttributes echoHardware emptyInstance wide30).1 ≠ kErrorNone := by
  decide

/-- The mode synthesized for a request of 16-bit size and 32-bit rate equals
the request on width, height and refresh rate. -/
theorem modeMatches_synthesizeMode (da : HWDisplayAttributes)
    (hx : da.x_pixels < 2 ^ 16) (hy : da.y_pixels < 2 ^ 16) (hfps : da.fps < 2 ^ 32) :
    modeMatches da (synthesizeMode da) = true := by
  rw [modeMatches_iff]
  simp only [synthesizeMode, UINT16, UINT32]
  refine ⟨?_, ?_, ?_⟩ <;> omega

/-- C20, amended: under hardware that accepts every mode-table update and
whose reload returns exactly the mode list it was given, every request with
non-zero width and height below 65536 and a 32-bit frame rate returns
`kErrorNone`, and afterwards the mode at the selected index equals the
request on width, height and refresh rate. -/
theorem C20_registration_succeeds (c : Collaborators)
    (haccept : ∀ calls cfg, c.drmIoctl calls cfg = 0)
    (hecho : ∀ calls cfg conn_id,
      (c.GetConnectorInfo (calls ++ [Call.drmIoctl_SDE_WB_CONFIG cfg]) conn_id).modes
        = cfg.modes)
    (s : HWVirtualDRM) (da : HWDisplayAttributes)
    (hx : da.x_pixels ≠ 0) (hy : da.y_pixels ≠ 0)
    (hx16 : da.x_pixels < 2 ^ 16) (hy16 : da.y_pixels < 2 ^ 16) (hfps : da.fps < 2 ^ 32) :
    (SetDisplayAttributes c s da).1 = kErrorNone ∧
    ∃ m,
      (SetDisplayAttributes c s da).2.connector_info_.modes[
        (SetDisplayAttributes c s da).2.current_mode_index_]? = some m ∧
      m.hdisplay = da.x_pixels ∧ m.vdisplay = da.y_pixels ∧ m.vrefresh = da.fps := by
  have hz : ¬ (da.x_pixels = 0 ∨ da.y_pixels = 0) := by
    rintro (h | h)
    · exact hx h
    · exact hy h
  rw [SetDisplayAttributes_eq, if_neg hz]
  by_cases hn : GetModeIndex s da < 0
  · rw [if_pos hn]
    have hret : ¬ SetWbConfigs.ret c s da ≠ 0 := by
      simp [SetWbConfigs.ret, haccept]
    rw [if_neg hret]
    have hmodes : (SetWbConfigs.afterReload c s da).connector_info_.modes
        = s.connector_info_.modes ++ [synthesizeMode da] := by
      rw [(SetWbConfigs.afterReload_frame c s da).1, SetWbConfigs.reloadedInfo]
      have hcalls : (SetWbConfigs.afterUpdate s da).calls_
          = s.calls_ ++ [Call.drmIoctl_SDE_WB_CONFIG (wbConfig (SetWbConfigs.pushed s da))] := by
        simp [SetWbConfigs.afterUpdate, HWVirtualDRM.call, SetWbConfigs.pushed]
      rw [hcalls, hecho]
      simp [wbConfig, SetWbConfigs.pushed]
    have hn2 : ¬ GetModeIndex (SetWbConfigs.afterReload c s da) da < 0 := by
      rw [GetModeIndex_neg_iff, hmodes]
      intro hall
      have := hall (synthesizeMode da) (by simp)
      rw [modeMatches_synthesizeMode da hx16 hy16 hfps] at this
      cases this
    rw [if_neg hn2]
    obtain ⟨i, m, _, hnat, _, hget, hm, _⟩ :=
      GetModeIndex_nonneg (SetWbConfigs.afterReload c s da) da hn2
    have hf := (modeMatches_iff da m).1 hm
    refine ⟨rfl, m, ?_, hf.1.symm, hf.2.1.symm, hf.2.2.symm⟩
    simpa [SetDisplayAttributes.finish, HWVirtualDRM.call, hnat] using hget
  · rw [if_neg hn]
    obtain ⟨i, m, _, hnat, _, hget, hm, _⟩ := GetModeIndex_nonneg s da hn
    have hf := (modeMatches_iff da m).1 hm
    refine ⟨rfl, m, ?_, hf.1.symm, hf.2.1.symm, hf.2.2.symm⟩
    simpa [SetDisplayAttributes.finish, HWVirtualDRM.call, hnat] using hget

/-- C20, amended, for 1280x720 at 60 fps on an instance that lists two other
modes. -/
theorem C20_registration_succeeds_witness :
    (∀ calls cfg, echoHardware.drmIoctl calls cfg = 0) ∧
    (∀ calls cfg conn_id,
      (echoHardware.GetConnectorInfo (calls ++ [Call.drmIoctl_SDE_WB_CONFIG cfg]) conn_id).modes
        = cfg.modes) ∧
    hd60.x_pixels ≠ 0 ∧ hd60.y_pixels ≠ 0 ∧
    hd60.x_pixels < 2 ^ 16 ∧ hd60.y_pixels < 2 ^ 16 ∧ hd60.fps < 2 ^ 32 ∧
    (SetDisplayAttributes echoHardware secondSelectedInstance hd60).1 = kErrorNone ∧
    ∃ m,
      (SetDisplayAttributes echoHardware secondSelectedInstance hd60).2.connector_info_.modes[
        (SetDisplayAttributes echoHardware secondSelectedInstance hd60).2.current_mode_index_]?
          = some m ∧
      m.hdisplay = hd60.x_pixels ∧ m.vdisplay = hd60.y_pixels ∧ m.vrefresh = hd60.fps :=
  ⟨fun _ _ => rfl,
   by intro calls cfg conn_id; simp [echoHardware, lastSubmitted],
   by decide, by decide, by decide, by decide, by decide,
   C20_registration_succeeds echoHardware (fun _ _ => rfl)
     (by intro calls cfg conn_id; simp [echoHardware, lastSubmitted])
     secondSelectedInstance hd60 (by decide) (by decide) (by decide) (by decide) (by decide)⟩

end sdm
